import Mathlib

/-!
# Verification of the open-meteo analytics core

Shallow embedding of the analytics helpers of this repository
(`helpers.py`: `calculate_wind_chill`, `assess_ski_conditions`,
`generate_weather_alerts`, `calculate_comfort_index`,
`calculate_astronomy_data`; `server.py`: the precipitation scan of the
`get_weather_alerts` tool), together with proofs and refutations of the
specification's claims about them.

Modelling conventions:
* Python floats are modelled as real numbers (`ℝ`) where the code performs
  real-valued arithmetic (wind chill's fractional power, the comfort index,
  astronomy trigonometry), and as rationals (`ℚ`) in the purely
  comparison/counting based alert engine, which keeps that part executable.
* Python `round(x, 1)` (round half to even) is modelled by `pyRound1`.
* A dynamically typed field value is `PyVal`: either a number or a
  non-numeric value (e.g. a string), which raises `TypeError` as soon as it
  is used in an arithmetic comparison; its Python truthiness is recorded.
* A dict field that may be absent is an `Option`; `.get(key, default)` is
  `Option.getD`.  A whole dict parameter whose Python truthiness is tested
  (`if not current`) is an `Option` of a record, `none` standing for an
  empty (falsy) dict.
* Raising code is written in the `Except Unit` monad; a `try/except` that
  swallows the exception is a `match` on the result.
-/

/-! ## Python-style rounding: `round(x, 1)` -/
/-- Round half to even on the reals (the semantics of Python's `round` for
the integer part). -/
noncomputable def roundHalfEven (x : ℝ) : ℤ :=
  if x - ⌊x⌋ < 1/2 then ⌊x⌋
  else if (1:ℝ)/2 < x - ⌊x⌋ then ⌊x⌋ + 1
  else if Even ⌊x⌋ then ⌊x⌋ else ⌊x⌋ + 1

/-- Python's `round(x, 1)`: round `10*x` half to even, divide by ten. -/
noncomputable def pyRound1 (x : ℝ) : ℝ :=
  (roundHalfEven (10 * x) : ℝ) / 10

/-! ## `calculate_wind_chill` (helpers.py, lines 180-213) -/
/-- The Celsius value computed in the formula branch of
`calculate_wind_chill`: `temp_f = temp*9/5+32`, `wind_mph = wind*0.621371`,
`wind_chill_f = 35.74 + 0.6215*temp_f - 35.75*wind_mph**0.16
+ 0.4275*temp_f*wind_mph**0.16`, converted back by `(wind_chill_f-32)*5/9`. -/
noncomputable def windChillFormula (temp wind : ℝ) : ℝ :=
  ((35.74 + 0.6215 * (temp * 9 / 5 + 32)
    - 35.75 * (wind * 0.621371) ^ (0.16 : ℝ)
    + 0.4275 * (temp * 9 / 5 + 32) * (wind * 0.621371) ^ (0.16 : ℝ)) - 32) * 5 / 9

/-- `calculate_wind_chill(temp, wind)`: below 4.8 km/h the temperature is
returned unchanged; otherwise the North American wind-chill formula is
applied in Fahrenheit/mph and the Celsius result is rounded to 1 decimal. -/
noncomputable def calculate_wind_chill (temp wind : ℝ) : ℝ :=
  if wind < 4.8 then temp else pyRound1 (windChillFormula temp wind)

/-! ## Dynamically typed dict values -/
/-- A dynamically typed Python value: a number, or a non-numeric value
(e.g. a string) that raises `TypeError` as soon as it is compared or
combined arithmetically with a number; `truthy` records its Python
truthiness. -/
inductive PyVal (α : Type) where
  | num (x : α)
  | invalid (truthy : Bool)
deriving DecidableEq, Repr

/-- `dict.get(key, default)` followed by a numeric use of the value:
an absent key yields the default, a numeric value yields itself, and a
non-numeric value raises. -/
def pyNumD {α : Type} (f : Option (PyVal α)) (d : α) : Except Unit α :=
  match f.getD (.num d) with
  | .num x => .ok x
  | .invalid _ => .error ()

/-- The value `dict.get(key, default)` evaluates to when it is numeric. -/
def effNum {α : Type} (f : Option (PyVal α)) (d : α) : α :=
  match f with
  | some (.num x) => x
  | _ => d

/-- The field holds no non-numeric value (it is absent or a number). -/
def NumericOpt {α : Type} (f : Option (PyVal α)) : Prop :=
  ∀ t, f ≠ some (.invalid t)

/-! ## `calculate_comfort_index` (helpers.py, lines 721-813) -/
/-- The `severity` field of the fixed weather-code table of
`interpret_weather_code` (helpers.py, lines 18-96), looked up with Python
dict-key equality on the numeric code; a non-numeric or unlisted code gets
the default entry's severity `"unknown"`.  Only the severity field is
embedded here, being the only one the comfort index reads. -/
noncomputable def weatherCodeSeverity (code : PyVal ℝ) : String :=
  match code with
  | .invalid _ => "unknown"
  | .num c =>
    if c = 0 ∨ c = 1 then "none"
    else if c = 2 ∨ c = 3 ∨ c = 51 ∨ c = 53 ∨ c = 61 ∨ c = 71 ∨ c = 80 ∨ c = 85 then "low"
    else if c = 45 ∨ c = 48 ∨ c = 55 ∨ c = 63 ∨ c = 73 ∨ c = 77 ∨ c = 81 then "medium"
    else if c = 65 ∨ c = 75 ∨ c = 82 ∨ c = 86 ∨ c = 95 ∨ c = 96 then "high"
    else if c = 99 then "extreme"
    else "unknown"

/-- `severity_map = {"none":100, "low":85, "medium":70, "high":40,
"extreme":10}`, default 50. -/
def severityScore (s : String) : ℝ :=
  if s = "none" then 100
  else if s = "low" then 85
  else if s = "medium" then 70
  else if s = "high" then 40
  else if s = "extreme" then 10
  else 50

/-- The `weather` dict as read by `calculate_comfort_index`. -/
structure WeatherMap where
  temperature : Option (PyVal ℝ)
  relative_humidity_2m : Option (PyVal ℝ)
  wind_speed_10m : Option (PyVal ℝ)
  uv_index : Option (PyVal ℝ)
  precipitation_probability : Option (PyVal ℝ)
  weather_code : Option (PyVal ℝ)

/-- The optional `air_quality` dict (a `none` argument also stands for an
empty, falsy dict, which the code treats the same way). -/
structure AirQualityMap where
  european_aqi : Option (PyVal ℝ)

structure ComfortFactors where
  thermal_comfort : ℝ
  air_quality : ℝ
  precipitation_risk : ℝ
  uv_safety : ℝ
  weather_condition : ℝ

structure ComfortResult where
  overall : ℝ
  factors : ComfortFactors
  recommendation : String

/-- The recommendation thresholds on the (unrounded) overall score. -/
noncomputable def comfortRecommendation (overall : ℝ) : String :=
  if overall ≥ 80 then "Perfect for outdoor activities"
  else if overall ≥ 60 then "Good conditions for outdoor activities"
  else if overall ≥ 40 then "Fair conditions; plan accordingly"
  else if overall ≥ 20 then "Poor conditions; seek indoor alternatives"
  else "Very poor conditions; avoid outdoor activities"

/-- The `try:` body of `calculate_comfort_index`: each field is fetched with
its default and raises at its first numeric use; the five factors and the
weighted overall are returned unrounded. -/
noncomputable def comfortBody (weather : WeatherMap)
    (air_quality : Option AirQualityMap) : Except Unit (ℝ × ComfortFactors) := do
  let temp ← pyNumD weather.temperature 15
  let thermal ←
    if temp > 25 then do
      let humidity ← pyNumD weather.relative_humidity_2m 50
      pure (100 - min 40 ((temp - 25) * 2 + (humidity - 40) * 0.5))
    else if temp < 5 then do
      let wind ← pyNumD weather.wind_speed_10m 10
      pure (max 0 (100 - min 50 ((5 - calculate_wind_chill temp wind) * 3)))
    else
      pure (100 - |temp - 20| * 2)
  let aqi ← match air_quality with
    | some aq => pyNumD aq.european_aqi 50
    | none => pure 50
  let air_quality_factor := max 0 (100 - aqi)
  let precip_prob ← pyNumD weather.precipitation_probability 0
  let precip_factor := 100 - precip_prob
  let uv ← pyNumD weather.uv_index 3
  let uv_factor := max 0 (100 - uv * 12)
  let weather_factor :=
    severityScore (weatherCodeSeverity (weather.weather_code.getD (.num 0)))
  let overall := thermal * 0.25 + air_quality_factor * 0.15
    + precip_factor * 0.20 + uv_factor * 0.15 + weather_factor * 0.25
  pure (overall,
    ⟨thermal, air_quality_factor, precip_factor, uv_factor, weather_factor⟩)

/-- The fixed fallback record of the `except:` branch. -/
noncomputable def comfortFallback : ComfortResult :=
  ⟨50, ⟨50, 50, 50, 50, 50⟩, "Unable to calculate comfort index"⟩

/-- `calculate_comfort_index(weather, air_quality)`: run the body; on success
round the overall and every factor to 1 decimal and attach the
recommendation (chosen from the unrounded overall, as in the source); on any
exception return the fixed fallback. -/
noncomputable def calculate_comfort_index (weather : WeatherMap)
    (air_quality : Option AirQualityMap) : ComfortResult :=
  match comfortBody weather air_quality with
  | .ok (overall, f) =>
    { overall := pyRound1 overall
      factors := ⟨pyRound1 f.thermal_comfort, pyRound1 f.air_quality,
        pyRound1 f.precipitation_risk, pyRound1 f.uv_safety,
        pyRound1 f.weather_condition⟩
      recommendation := comfortRecommendation overall }
  | .error _ => comfortFallback

/-- The thermal sub-score: heat-index penalty above 25 °C, wind-chill
penalty below 5 °C, distance from 20 °C otherwise. -/
noncomputable def comfortThermal (temp humidity wind : ℝ) : ℝ :=
  if temp > 25 then 100 - min 40 ((temp - 25) * 2 + (humidity - 40) * 0.5)
  else if temp < 5 then
    max 0 (100 - min 50 ((5 - calculate_wind_chill temp wind) * 3))
  else 100 - |temp - 20| * 2

/-- The pure value of the body on numeric inputs (same formulas, fields
already fetched). -/
noncomputable def comfortVals (temp humidity wind uv precip_prob : ℝ)
    (weather_code : PyVal ℝ) (aqi : ℝ) : ℝ × ComfortFactors :=
  let thermal := comfortThermal temp humidity wind
  let air_quality_factor := max 0 (100 - aqi)
  let precip_factor := 100 - precip_prob
  let uv_factor := max 0 (100 - uv * 12)
  let weather_factor := severityScore (weatherCodeSeverity weather_code)
  (thermal * 0.25 + air_quality_factor * 0.15 + precip_factor * 0.20
      + uv_factor * 0.15 + weather_factor * 0.25,
    ⟨thermal, air_quality_factor, precip_factor, uv_factor, weather_factor⟩)

/-- The effective AQI: 50 when the dict is absent/falsy or the key missing. -/
def effAqi (a : Option AirQualityMap) : ℝ :=
  match a with
  | some aq => effNum aq.european_aqi 50
  | none => 50

/-- All numeric-use fields of the weather dict are absent or numeric
(`weather_code` is exempt: a non-numeric code never raises, it just misses
every key of the code table). -/
def WeatherMap.Numeric (w : WeatherMap) : Prop :=
  NumericOpt w.temperature ∧ NumericOpt w.relative_humidity_2m ∧
  NumericOpt w.wind_speed_10m ∧ NumericOpt w.uv_index ∧
  NumericOpt w.precipitation_probability

def AirNumeric : Option AirQualityMap → Prop
  | none => True
  | some aq => NumericOpt aq.european_aqi

/-- The range every comfort result actually satisfies (four factors in
[0,100], the thermal factor only in [0,120], the overall only in [0,105]). -/
def ComfortInBounds (r : ComfortResult) : Prop :=
  0 ≤ r.overall ∧ r.overall ≤ 105 ∧
  0 ≤ r.factors.thermal_comfort ∧ r.factors.thermal_comfort ≤ 120 ∧
  0 ≤ r.factors.air_quality ∧ r.factors.air_quality ≤ 100 ∧
  0 ≤ r.factors.precipitation_risk ∧ r.factors.precipitation_risk ≤ 100 ∧
  0 ≤ r.factors.uv_safety ∧ r.factors.uv_safety ≤ 100 ∧
  0 ≤ r.factors.weather_condition ∧ r.factors.weather_condition ≤ 100

/-- The weather dict with every absent key replaced by the default the code
substitutes for it: temperature 15, relative_humidity_2m 50,
wind_speed_10m 10, uv_index 3, precipitation_probability 0, weather_code 0. -/
def fillWeather (w : WeatherMap) : WeatherMap :=
  ⟨some (w.temperature.getD (.num 15)), some (w.relative_humidity_2m.getD (.num 50)),
   some (w.wind_speed_10m.getD (.num 10)), some (w.uv_index.getD (.num 3)),
   some (w.precipitation_probability.getD (.num 0)),
   some (w.weather_code.getD (.num 0))⟩

/-- The air-quality dict with an absent dict or key replaced by the default
european_aqi 50. -/
def fillAir (a : Option AirQualityMap) : Option AirQualityMap :=
  match a with
  | none => some ⟨some (.num 50)⟩
  | some aq => some ⟨some (aq.european_aqi.getD (.num 50))⟩

/-! ## `assess_ski_conditions` (helpers.py, lines 137-164) -/
/-- The `snow_data` dict as read by `assess_ski_conditions` (the claims
concern its numeric behaviour, so fields are rationals-or-absent). -/
structure SnowData where
  snow_depth : Option ℚ
  recent_snowfall : Option ℚ

/-- The `weather_data` dict as read by `assess_ski_conditions`. -/
structure SkiWeatherData where
  temperature : Option ℚ
  weather_code : Option ℚ

/-- `assess_ski_conditions(snow_data, weather_data)`: defaults 0 for every
missing key, then the ordered if/elif chain Excellent / Good / Fair / Poor. -/
def assess_ski_conditions (snow_data : SnowData)
    (weather_data : SkiWeatherData) : String :=
  let snow_depth := snow_data.snow_depth.getD 0
  let recent_snowfall := snow_data.recent_snowfall.getD 0
  let temperature := weather_data.temperature.getD 0
  let weather_code := weather_data.weather_code.getD 0
  if recent_snowfall > 10 ∧ (-15 ≤ temperature ∧ temperature ≤ -5)
      ∧ weather_code ∈ ([0, 1, 2] : List ℚ) then "Excellent"
  else if snow_depth > 0.5 ∧ (-10 ≤ temperature ∧ temperature ≤ 0)
      ∧ weather_code ∈ ([0, 1, 2, 3] : List ℚ) then "Good"
  else if snow_depth > 0.2 ∧ temperature < 5 then "Fair"
  else "Poor"

/-! ## `generate_weather_alerts` (helpers.py, lines 278-474)

The engine scans rational-valued series (its logic is pure comparison and
counting, so `ℚ` keeps it executable).  `datetime.now()`-based fallback
timestamps are represented symbolically. -/
/-- Timestamps appearing in alerts: a value from the hourly `time` series,
or the `datetime.now()` / `now + timedelta(hours=h)` fallbacks. -/
inductive Timestamp where
  | lit (s : String)
  | now
  | nowPlusHours (h : ℕ)
deriving DecidableEq, Repr

/-- A `WeatherAlert` dictionary (`stop` models the `"end"` key). -/
structure Alert where
  type : String
  severity : String
  start : Timestamp
  stop : Timestamp
  description : String
  recommendations : List String
deriving DecidableEq, Repr

/-- The `current` dict (only `temperature` is read). `none` at the call
site stands for an empty/falsy dict. -/
structure CurrentData where
  temperature : Option (PyVal ℚ)
deriving DecidableEq, Repr

/-- The `hourly` dict: the four series the engine reads. -/
structure HourlyData where
  temperature_2m : Option (List (PyVal ℚ))
  wind_gusts_10m : Option (List (PyVal ℚ))
  uv_index : Option (List (PyVal ℚ))
  time : Option (List String)
deriving DecidableEq, Repr

/-- The `daily` dict: only `weather_code` is read. -/
structure DailyData where
  weather_code : Option (List (PyVal ℚ))
deriving DecidableEq, Repr

/-- Python truthiness of a dynamic value (`0` is falsy). -/
def pyTruthy : PyVal ℚ → Bool
  | .num x => decide (x ≠ 0)
  | .invalid t => t

/-- `threshold < v` on a dynamic value; raises on a non-numeric value. -/
def pyGT (v : PyVal ℚ) (threshold : ℚ) : Except Unit Bool :=
  match v with
  | .num x => .ok (decide (threshold < x))
  | .invalid _ => .error ()

/-- `v < threshold` on a dynamic value; raises on a non-numeric value. -/
def pyLT (v : PyVal ℚ) (threshold : ℚ) : Except Unit Bool :=
  match v with
  | .num x => .ok (decide (x < threshold))
  | .invalid _ => .error ()

/-- The numeric value itself; raises on a non-numeric value. -/
def pyNum : PyVal ℚ → Except Unit ℚ
  | .num x => .ok x
  | .invalid _ => .error ()

/-- `lst[i]`: raises `IndexError` when out of range. -/
def pyIndex {α : Type} (l : List α) (i : ℕ) : Except Unit α :=
  match l[i]? with
  | some x => .ok x
  | none => .error ()

/-- `sum(1 for t in lst if t > 30)`: counts, raising at any non-numeric
element. -/
def countAbove30 : List (PyVal ℚ) → Except Unit ℕ
  | [] => .ok 0
  | v :: rest => do
    let b ← pyGT v 30
    let n ← countAbove30 rest
    pure (if b then n + 1 else n)

/-- `any(t < -10 for t in lst)`: short-circuits at the first hit, raising at
a non-numeric element reached before one. -/
def anyBelowNeg10 : List (PyVal ℚ) → Except Unit Bool
  | [] => .ok false
  | v :: rest => do
    let b ← pyLT v (-10)
    if b then pure true else anyBelowNeg10 rest

/-- `[i for i, w in enumerate(lst) if w and w > threshold]`: the whole list
is traversed; falsy elements are skipped without comparison, truthy
non-numeric elements raise. -/
def filterIdxGT (threshold : ℚ) : ℕ → List (PyVal ℚ) → Except Unit (List ℕ)
  | _, [] => .ok []
  | i, v :: rest =>
    if pyTruthy v then do
      let b ← pyGT v threshold
      let l ← filterIdxGT threshold (i + 1) rest
      pure (if b then i :: l else l)
    else filterIdxGT threshold (i + 1) rest

/-- `[i for i, w in enumerate(lst) if w and lo < w <= hi]`. -/
def filterIdxBetween (lo hi : ℚ) : ℕ → List (PyVal ℚ) → Except Unit (List ℕ)
  | _, [] => .ok []
  | i, v :: rest =>
    if pyTruthy v then do
      let b ← match v with
        | .num x => Except.ok (decide (lo < x ∧ x ≤ hi))
        | .invalid _ => Except.error ()
      let l ← filterIdxBetween lo hi (i + 1) rest
      pure (if b then i :: l else l)
    else filterIdxBetween lo hi (i + 1) rest

/-- `[code for code in daily_codes if code in [95, 96, 99]]` (the `in` test
uses `==` and never raises). -/
def thunderstormCodes (codes : List (PyVal ℚ)) : List (PyVal ℚ) :=
  codes.filter fun v =>
    match v with
    | .num x => decide (x = 95 ∨ x = 96 ∨ x = 99)
    | .invalid _ => false

def heatRecs : List String :=
  ["Limit outdoor activities during peak heat (11am-4pm)",
   "Increase hydration significantly",
   "Check on elderly and vulnerable populations",
   "Seek air-conditioned spaces during hottest hours"]

def coldRecs : List String :=
  ["Avoid prolonged outdoor exposure",
   "Wear appropriate winter gear",
   "Watch for signs of frostbite and hypothermia",
   "Check heating systems are functioning"]

def stormRecs : List String :=
  ["Avoid outdoor activities in exposed areas",
   "Secure loose outdoor items",
   "Monitor for flash flooding",
   "Keep emergency contacts and supplies ready"]

def uvRecs : List String :=
  ["Apply high SPF sunscreen (SPF 50+) every 2 hours",
   "Seek shade during peak UV hours (10am-4pm)",
   "Wear UV-protective clothing, hat, and sunglasses",
   "Avoid direct sun exposure for sensitive individuals"]

def windRecs : List String :=
  ["Be cautious in exposed areas",
   "Check forecasts before outdoor activities",
   "Secure loose items",
   "Safe for most outdoor activities with caution"]

/-- The HEAT rule: count `heat_hours` among the first 24 hourly temperature
samples above 30 °C; fire when at least 3, severity watch below 6 and
warning from 6 up; the window end indexes `hourly_times[min(24, heat_hours)]`
(an `IndexError` there aborts the whole evaluation). -/
def heatRule (hourly_temps : List (PyVal ℚ)) (hourly_times : List String) :
    Except Unit (List Alert) :=
  if hourly_temps ≠ [] then do
    let heat_hours ← countAbove30 (hourly_temps.take 24)
    if heat_hours ≥ 3 then do
      let stop ← if hourly_times ≠ [] then
          do pure (Timestamp.lit (← pyIndex hourly_times (min 24 heat_hours)))
        else pure (Timestamp.nowPlusHours 6)
      pure [{ type := "heat"
              severity := if heat_hours < 6 then "watch" else "warning"
              start := if hourly_times ≠ [] then .lit (hourly_times.headD "")
                else .now
              stop := stop
              description := "High temperature alert: " ++ toString heat_hours
                ++ " hours above 30°C expected"
              recommendations := heatRecs }]
    else pure []
  else pure []

/-- The COLD rule: fires when the current temperature or any of the first
24 hourly samples is below −10 °C; severity watch above −20 °C current,
warning otherwise. -/
def coldRule (current_temp : PyVal ℚ) (hourly_temps : List (PyVal ℚ))
    (hourly_times : List String) : Except Unit (List Alert) := do
  let ct ← pyNum current_temp
  let fires ← if ct < -10 then pure true
    else anyBelowNeg10 (hourly_temps.take 24)
  if fires then
    pure [{ type := "cold"
            severity := if ct > -20 then "watch" else "warning"
            start := if hourly_times ≠ [] then .lit (hourly_times.headD "")
              else .now
            stop := if hourly_times ≠ [] then
                .lit (hourly_times.getD (min 12 (hourly_times.length - 1)) "")
              else .nowPlusHours 12
            description := "Extreme cold alert: temperatures below -10°C expected"
            recommendations := coldRecs }]
  else pure []

/-- The STORM rule: fires on any truthy wind-gust sample above 80 km/h or a
daily thunderstorm code 95/96/99; the computed `high_wind_hours` index list
is also returned because the moderate-wind rule consults it. -/
def stormRule (hourly_winds : List (PyVal ℚ)) (daily_codes : List (PyVal ℚ))
    (hourly_times : List String) : Except Unit (List Alert × List ℕ) := do
  let high_wind_hours ← filterIdxGT 80 0 hourly_winds
  let tcodes := thunderstormCodes daily_codes
  if high_wind_hours ≠ [] ∨ tcodes ≠ [] then do
    let start ← if high_wind_hours ≠ [] ∧ hourly_times ≠ [] then
        do pure (Timestamp.lit (← pyIndex hourly_times (high_wind_hours.headD 0)))
      else pure Timestamp.now
    pure ([{ type := "storm"
             severity := if high_wind_hours ≠ [] ∨ tcodes ≠ [] then "warning"
               else "advisory"
             start := start
             stop := if high_wind_hours ≠ [] ∧ hourly_times ≠ [] then
                 .lit (hourly_times.getD
                   (min (high_wind_hours.getLastD 0 + 2) (hourly_times.length - 1)) "")
               else .nowPlusHours 4
             description := "Storm warning: strong winds (>80 km/h) or thunderstorms expected"
             recommendations := stormRecs }], high_wind_hours)
  else pure ([], high_wind_hours)

/-- The UV rule: fires on any truthy hourly UV sample above 8, severity
always advisory. -/
def uvRule (hourly_uvs : List (PyVal ℚ)) (hourly_times : List String) :
    Except Unit (List Alert) := do
  let high_uv_hours ← filterIdxGT 8 0 hourly_uvs
  if high_uv_hours ≠ [] then do
    let start ← if hourly_times ≠ [] then
        do pure (Timestamp.lit (← pyIndex hourly_times (high_uv_hours.headD 0)))
      else pure Timestamp.now
    pure [{ type := "uv", severity := "advisory"
            start := start
            stop := if hourly_times ≠ [] then
                .lit (hourly_times.getD
                  (min (high_uv_hours.getLastD 0 + 1) (hourly_times.length - 1)) "")
              else .nowPlusHours 3
            description := "Extreme UV alert: UV index above 8 expected"
            recommendations := uvRecs }]
  else pure []

/-- The moderate-WIND rule: fires on a truthy gust sample in (50, 80] only
when the storm rule's `high_wind_hours` list is empty. -/
def windRule (hourly_winds : List (PyVal ℚ)) (hourly_times : List String)
    (high_wind_hours : List ℕ) : Except Unit (List Alert) := do
  let moderate_wind_hours ← filterIdxBetween 50 80 0 hourly_winds
  if moderate_wind_hours ≠ [] ∧ high_wind_hours = [] then do
    let start ← if hourly_times ≠ [] then
        do pure (Timestamp.lit (← pyIndex hourly_times (moderate_wind_hours.headD 0)))
      else pure Timestamp.now
    pure [{ type := "wind", severity := "advisory"
            start := start
            stop := if hourly_times ≠ [] then
                .lit (hourly_times.getD
                  (min (moderate_wind_hours.getLastD 0 + 1) (hourly_times.length - 1)) "")
              else .nowPlusHours 2
            description := "High wind advisory: gusts 50-80 km/h expected"
            recommendations := windRecs }]
  else pure []

/-- `generate_weather_alerts(current, hourly, daily, timezone)`: empty/falsy
inputs return `[]`; otherwise the five rules run in order inside one
`try/except` whose handler keeps the alerts accumulated so far, so an
exception in a rule returns the prefix built before it. -/
def generate_weather_alerts (current : Option CurrentData)
    (hourly : Option HourlyData) (daily : Option DailyData)
    (timezone : String) : List Alert :=
  match current, hourly, daily with
  | some c, some h, some d =>
    let current_temp := c.temperature.getD (.num 20)
    let hourly_temps := h.temperature_2m.getD []
    let hourly_winds := h.wind_gusts_10m.getD []
    let hourly_uvs := h.uv_index.getD []
    let hourly_times := h.time.getD []
    let daily_codes := d.weather_code.getD []
    match heatRule hourly_temps hourly_times with
    | .error _ => []
    | .ok a1 =>
      match coldRule current_temp hourly_temps hourly_times with
      | .error _ => a1
      | .ok a2 =>
        match stormRule hourly_winds daily_codes hourly_times with
        | .error _ => a1 ++ a2
        | .ok (a3, hwh) =>
          match uvRule hourly_uvs hourly_times with
          | .error _ => a1 ++ a2 ++ a3
          | .ok a4 =>
            match windRule hourly_winds hourly_times hwh with
            | .error _ => a1 ++ a2 ++ a3 ++ a4
            | .ok a5 => a1 ++ a2 ++ a3 ++ a4 ++ a5
  | _, _, _ => []

/-! ## Precipitation scan of the `get_weather_alerts` tool
(server.py, lines 960-990) -/
def precipRecs : List String :=
  ["Allow extra travel time due to possible delays",
   "Drive carefully and reduce speed",
   "Avoid flood-prone areas and underpasses",
   "Carry umbrella and waterproof gear"]

/-- A precipitation alert of the current-snapshot tool path.  Its window is
`[current_time + i hours, current_time + (i+1) hours]`, kept here as hour
offsets; `amount` is the sample the description quotes
(`f"Heavy precipitation alert: {precip:.1f}mm/hour expected"`). -/
structure SnapshotAlert where
  type : String
  severity : String
  startHoursFromNow : ℕ
  endHoursFromNow : ℕ
  amount : ℚ
  recommendations : List String
deriving DecidableEq, Repr

/-- The scan loop body: `for i in range(...)`, guarded per-iteration by
`i < len(precipitation)`; the first sample above 10 mm emits one alert and
`break`s. -/
def precipScan (precipitation : List ℚ) : ℕ → ℕ → List SnapshotAlert
  | _, 0 => []
  | i, n + 1 =>
    if i < precipitation.length then
      if 10 < precipitation.getD i 0 then
        [{ type := "precipitation"
           severity := if 20 < precipitation.getD i 0 then "warning" else "watch"
           startHoursFromNow := i
           endHoursFromNow := i + 1
           amount := precipitation.getD i 0
           recommendations := precipRecs }]
      else precipScan precipitation (i + 1) n
    else precipScan precipitation (i + 1) n

/-- The precipitation section of the `get_weather_alerts` tool:
`hours_to_check = min(forecast_hours, len(hourly.time) if present else 24)`
iterations of the scan.  An absent `precipitation` attribute leaves the loop
with nothing to do. -/
def get_weather_alerts_precipitation (forecast_hours : ℕ) (timeLen : Option ℕ)
    (precipitation : Option (List ℚ)) : List SnapshotAlert :=
  match precipitation with
  | none => []
  | some precip => precipScan precip 0 (min forecast_hours (timeLen.getD 24))

/-! ## `calculate_astronomy_data` (helpers.py, lines 604-718) -/
/-- `math.asin`: raises `ValueError` outside [-1, 1]. -/
noncomputable def pyAsin (x : ℝ) : Except Unit ℝ :=
  if |x| ≤ 1 then .ok (Real.arcsin x) else .error ()

/-- `math.acos`: raises `ValueError` outside [-1, 1]. -/
noncomputable def pyAcos (x : ℝ) : Except Unit ℝ :=
  if |x| ≤ 1 then .ok (Real.arccos x) else .error ()

/-- Python's float `%` (sign follows the divisor). -/
noncomputable def pyMod (x y : ℝ) : ℝ := x - y * ⌊x / y⌋

/-- The astronomy record as far as the claims read it: sunrise, sunset and
day length, null on any exception. -/
structure AstronomyResult where
  sunrise : Option ℝ
  sunset : Option ℝ
  day_length_hours : Option ℝ

/-- The `try:` body of `calculate_astronomy_data` (solar-position pipeline of
helpers.py lines 634-670).  `dayOfYear`/`nowHour` stand in for
`datetime.now()`; the timezone lookup (with its own inner fallback to UTC),
`datetime.combine`, localisation and ISO formatting are total,
value-preserving steps, so the sunrise/sunset values are kept as their UTC
hour offsets.  The only raising operations are `math.asin` and `math.acos`. -/
noncomputable def astronomyBody (latitude longitude : ℝ)
    (dayOfYear nowHour : ℕ) : Except Unit (ℝ × ℝ) := do
  let lat_rad := latitude * (Real.pi / 180)
  let n : ℝ := (dayOfYear : ℝ) + ((nowHour : ℝ) - 12) / 24
  let J := n - longitude / 360
  let M := pyMod (357.5291 + 0.98565 * J) 360
  let M_rad := M * (Real.pi / 180)
  let C := 1.9164 * Real.sin M_rad + 0.02 * Real.sin (2 * M_rad)
    + 0.0029 * Real.sin (3 * M_rad)
  let lambda_sun := pyMod (280.4665 + 36000.76983 * (J / 36525)
    + 0.0003025 * (J / 36525) ^ 2) 360
  let lambda_sun' := pyMod (lambda_sun + C) 360
  let lambda_sun_rad := lambda_sun' * (Real.pi / 180)
  let delta ← pyAsin (Real.sin (23.4393 * (Real.pi / 180))
    * Real.sin lambda_sun_rad)
  let cos_h := -Real.tan lat_rad * Real.tan delta
  let cos_h' := max (-1) (min 1 cos_h)
  let h ← pyAcos cos_h'
  let hdeg := h * (180 / Real.pi)
  let utc_offset := longitude / 15
  let sunrise_utc := 12 - hdeg / 15 - utc_offset
  let sunset_utc := 12 + hdeg / 15 - utc_offset
  pure (sunrise_utc, sunset_utc)

/-- `calculate_astronomy_data`: on success a populated record (day length
rounded to one decimal), on any exception the null fallback
`{"sunrise": None, "sunset": None, "error": ...}`. -/
noncomputable def calculate_astronomy_data (latitude longitude : ℝ)
    (dayOfYear nowHour : ℕ) : AstronomyResult :=
  match astronomyBody latitude longitude dayOfYear nowHour with
  | .ok (sunrise, sunset) =>
    { sunrise := some sunrise, sunset := some sunset
      day_length_hours := some (pyRound1 (sunset - sunrise)) }
  | .error _ => { sunrise := none, sunset := none, day_length_hours := none }

/-! ## Theorems: claims of the specification and supporting lemmas -/

theorem floor_le_roundHalfEven (x : ℝ) : ⌊x⌋ ≤ roundHalfEven x := by
  unfold roundHalfEven; split_ifs <;> omega

theorem roundHalfEven_le_floor_add_one (x : ℝ) : roundHalfEven x ≤ ⌊x⌋ + 1 := by
  unfold roundHalfEven; split_ifs <;> omega

theorem roundHalfEven_le (x : ℝ) : (roundHalfEven x : ℝ) ≤ x + 1/2 := by
  have h1 : (⌊x⌋ : ℝ) ≤ x := Int.floor_le x
  have h2 : x < ⌊x⌋ + 1 := Int.lt_floor_add_one x
  unfold roundHalfEven
  split_ifs with ha hb hc <;> push_cast <;> linarith

theorem le_roundHalfEven (x : ℝ) : x - 1/2 ≤ (roundHalfEven x : ℝ) := by
  have h1 : (⌊x⌋ : ℝ) ≤ x := Int.floor_le x
  have h2 : x < ⌊x⌋ + 1 := Int.lt_floor_add_one x
  unfold roundHalfEven
  split_ifs with ha hb hc <;> push_cast <;> linarith

theorem roundHalfEven_intCast (n : ℤ) : roundHalfEven (n : ℝ) = n := by
  unfold roundHalfEven
  rw [Int.floor_intCast]
  have : (n : ℝ) - n = 0 := by ring
  rw [this]
  norm_num

theorem roundHalfEven_le_of_le {x : ℝ} {c : ℤ} (h : x ≤ (c : ℝ)) :
    roundHalfEven x ≤ c := by
  have h1 : (roundHalfEven x : ℝ) ≤ x + 1/2 := roundHalfEven_le x
  have h2 : (roundHalfEven x : ℝ) < (c : ℝ) + 1 := by linarith
  have h3 : roundHalfEven x < c + 1 := by exact_mod_cast h2
  omega

theorem le_roundHalfEven_of_le {x : ℝ} {c : ℤ} (h : (c : ℝ) ≤ x) :
    c ≤ roundHalfEven x := by
  have h1 : x - 1/2 ≤ (roundHalfEven x : ℝ) := le_roundHalfEven x
  have h2 : (c : ℝ) - 1 < (roundHalfEven x : ℝ) := by linarith
  have h3 : c - 1 < roundHalfEven x := by exact_mod_cast h2
  omega

theorem roundHalfEven_mono {x y : ℝ} (h : x ≤ y) :
    roundHalfEven x ≤ roundHalfEven y := by
  have hf : ⌊x⌋ ≤ ⌊y⌋ := Int.floor_le_floor h
  rcases lt_or_eq_of_le hf with hlt | heq
  · calc roundHalfEven x ≤ ⌊x⌋ + 1 := roundHalfEven_le_floor_add_one x
      _ ≤ ⌊y⌋ := by omega
      _ ≤ roundHalfEven y := floor_le_roundHalfEven y
  · have hxy : x - ⌊x⌋ ≤ y - ⌊y⌋ := by
      rw [← heq]; linarith
    unfold roundHalfEven
    rw [← heq]
    split_ifs <;> first | omega | linarith

theorem pyRound1_le (x : ℝ) : pyRound1 x ≤ x + 1/20 := by
  unfold pyRound1
  have := roundHalfEven_le (10 * x)
  linarith

theorem le_pyRound1 (x : ℝ) : x - 1/20 ≤ pyRound1 x := by
  unfold pyRound1
  have := le_roundHalfEven (10 * x)
  linarith

theorem pyRound1_mono {x y : ℝ} (h : x ≤ y) : pyRound1 x ≤ pyRound1 y := by
  unfold pyRound1
  have hm : roundHalfEven (10 * x) ≤ roundHalfEven (10 * y) :=
    roundHalfEven_mono (by linarith)
  have : (roundHalfEven (10 * x) : ℝ) ≤ (roundHalfEven (10 * y) : ℝ) := by
    exact_mod_cast hm
  linarith

/-- `round(x, 1)` is the identity on exact tenths. -/
theorem pyRound1_tenths (n : ℤ) : pyRound1 ((n : ℝ) / 10) = (n : ℝ) / 10 := by
  unfold pyRound1
  have h : (10 : ℝ) * ((n : ℝ) / 10) = (n : ℝ) := by ring
  rw [h, roundHalfEven_intCast]

theorem pyRound1_nonneg {x : ℝ} (h : 0 ≤ x) : 0 ≤ pyRound1 x := by
  unfold pyRound1
  have h0 : ((0 : ℤ) : ℝ) ≤ 10 * x := by push_cast; linarith
  have := le_roundHalfEven_of_le h0
  have : ((0 : ℤ) : ℝ) ≤ (roundHalfEven (10 * x) : ℝ) := by exact_mod_cast this
  push_cast at this
  linarith

theorem pyRound1_le_of_le {x : ℝ} {c : ℤ} (h : x ≤ (c : ℝ)) :
    pyRound1 x ≤ (c : ℝ) := by
  unfold pyRound1
  have h0 : 10 * x ≤ ((10 * c : ℤ) : ℝ) := by push_cast; linarith
  have h1 := roundHalfEven_le_of_le h0
  have h2 : (roundHalfEven (10 * x) : ℝ) ≤ ((10 * c : ℤ) : ℝ) := by exact_mod_cast h1
  push_cast at h2
  linarith

/-- `(4.8 km/h in mph) ** 0.16` is at least `1.19` (numeric fact used to
bound the formula branch at its low-wind boundary). -/
theorem windChillPow_lower : (1.19 : ℝ) ≤ (2.9825808 : ℝ) ^ (0.16 : ℝ) := by
  have hbase : (0:ℝ) ≤ 2.9825808 := by norm_num
  have hp : (0:ℝ) ≤ (2.9825808 : ℝ) ^ (0.16 : ℝ) := Real.rpow_nonneg hbase _
  have key : ((2.9825808 : ℝ) ^ (0.16 : ℝ)) ^ (25 : ℕ)
      = (2.9825808 : ℝ) ^ (4 : ℕ) := by
    rw [← Real.rpow_natCast ((2.9825808 : ℝ) ^ (0.16 : ℝ)) 25,
        ← Real.rpow_mul hbase]
    rw [show (0.16 : ℝ) * ((25 : ℕ) : ℝ) = ((4 : ℕ) : ℝ) by push_cast; norm_num,
        Real.rpow_natCast]
  have hnum : (1.19 : ℝ) ^ (25 : ℕ) ≤ (2.9825808 : ℝ) ^ (4 : ℕ) := by norm_num
  have hpow : (1.19 : ℝ) ^ (25 : ℕ) ≤ ((2.9825808 : ℝ) ^ (0.16 : ℝ)) ^ (25 : ℕ) := by
    rw [key]; exact hnum
  exact le_of_pow_le_pow_left₀ (by norm_num) hp hpow

/-- On wind speeds at or above the 4.8 km/h threshold and temperatures below
10 °C, the unrounded formula stays at least 0.1 °C below the air
temperature. -/
theorem windChillFormula_le {temp wind : ℝ} (ht : temp < 10) (hw : 4.8 ≤ wind) :
    windChillFormula temp wind ≤ temp - 1/10 := by
  have hm : (2.9825808 : ℝ) ≤ wind * 0.621371 := by nlinarith
  have hp19 : (1.19 : ℝ) ≤ (wind * 0.621371) ^ (0.16 : ℝ) :=
    le_trans windChillPow_lower (Real.rpow_le_rpow (by norm_num) hm (by norm_num))
  have hB : (0:ℝ) ≤ 35.75 - 0.4275 * (temp * 9 / 5 + 32) := by nlinarith
  unfold windChillFormula
  nlinarith [mul_nonneg (sub_nonneg.mpr hp19) hB]

/-- For fixed temperatures below 10 °C the unrounded formula is
non-increasing in wind speed (above the threshold). -/
theorem windChillFormula_mono {temp w1 w2 : ℝ} (ht : temp < 10)
    (h1 : 4.8 ≤ w1) (h12 : w1 ≤ w2) :
    windChillFormula temp w2 ≤ windChillFormula temp w1 := by
  have h0 : (0:ℝ) ≤ w1 * 0.621371 := by nlinarith
  have hmm : w1 * 0.621371 ≤ w2 * 0.621371 := by nlinarith
  have hple : (w1 * 0.621371) ^ (0.16 : ℝ) ≤ (w2 * 0.621371) ^ (0.16 : ℝ) :=
    Real.rpow_le_rpow h0 hmm (by norm_num)
  have hB : (0:ℝ) ≤ 35.75 - 0.4275 * (temp * 9 / 5 + 32) := by nlinarith
  unfold windChillFormula
  nlinarith [mul_nonneg (sub_nonneg.mpr hple) hB]

/-- Below 10 °C the rounded wind chill never exceeds the air temperature. -/
theorem calculate_wind_chill_le_self (temp wind : ℝ) (ht : temp < 10) :
    calculate_wind_chill temp wind ≤ temp := by
  unfold calculate_wind_chill
  split_ifs with hwlt
  · exact le_refl temp
  · have h1 := windChillFormula_le ht (le_of_not_lt hwlt)
    have h2 := pyRound1_le (windChillFormula temp wind)
    linarith

/-- Below 10 °C `calculate_wind_chill` is non-increasing in wind speed. -/
theorem calculate_wind_chill_antitone (temp w1 w2 : ℝ) (ht : temp < 10)
    (h12 : w1 ≤ w2) :
    calculate_wind_chill temp w2 ≤ calculate_wind_chill temp w1 := by
  unfold calculate_wind_chill
  split_ifs with hw2 hw1 hw1
  · exact le_refl temp
  · exact absurd (lt_of_le_of_lt h12 hw2) hw1
  · have h1 := windChillFormula_le ht (le_of_not_lt hw2)
    have h2 := pyRound1_le (windChillFormula temp w2)
    linarith
  · exact pyRound1_mono (windChillFormula_mono ht (le_of_not_lt hw1) h12)

theorem pyNumD_eq {α : Type} {f : Option (PyVal α)} (d : α) (h : NumericOpt f) :
    pyNumD f d = .ok (effNum f d) := by
  match f with
  | none => rfl
  | some (.num x) => rfl
  | some (.invalid t) => exact absurd rfl (h t)

theorem pyNumD_invalid {α : Type} {f : Option (PyVal α)} (d : α) {t : Bool}
    (h : f = some (.invalid t)) : pyNumD f d = .error () := by
  rw [h]; rfl

/-- On numeric inputs the body never raises and computes the factor formulas
on the fetched-or-default values. -/
theorem comfortBody_numeric {w : WeatherMap} {a : Option AirQualityMap}
    (hw : w.Numeric) (ha : AirNumeric a) :
    comfortBody w a = .ok (comfortVals (effNum w.temperature 15)
      (effNum w.relative_humidity_2m 50) (effNum w.wind_speed_10m 10)
      (effNum w.uv_index 3) (effNum w.precipitation_probability 0)
      (w.weather_code.getD (.num 0)) (effAqi a)) := by
  obtain ⟨h1, h2, h3, h4, h5⟩ := hw
  cases a with
  | none =>
    unfold comfortBody comfortVals comfortThermal effAqi
    rw [pyNumD_eq 15 h1, pyNumD_eq 50 h2, pyNumD_eq 10 h3, pyNumD_eq 3 h4,
      pyNumD_eq 0 h5]
    by_cases hc1 : effNum w.temperature 15 > 25
    · simp [hc1, Bind.bind, Except.bind, Pure.pure, Except.pure]
    · by_cases hc2 : effNum w.temperature 15 < 5
      · simp [hc1, hc2, Bind.bind, Except.bind, Pure.pure, Except.pure]
      · simp [hc1, hc2, Bind.bind, Except.bind, Pure.pure, Except.pure]
  | some aq =>
    have ha' : NumericOpt aq.european_aqi := ha
    unfold comfortBody comfortVals comfortThermal effAqi
    rw [pyNumD_eq 15 h1, pyNumD_eq 50 h2, pyNumD_eq 10 h3, pyNumD_eq 3 h4,
      pyNumD_eq 0 h5]
    by_cases hc1 : effNum w.temperature 15 > 25
    · simp [hc1, Bind.bind, Except.bind, Pure.pure, Except.pure, pyNumD_eq 50 ha']
    · by_cases hc2 : effNum w.temperature 15 < 5
      · simp [hc1, hc2, Bind.bind, Except.bind, Pure.pure, Except.pure, pyNumD_eq 50 ha']
      · simp [hc1, hc2, Bind.bind, Except.bind, Pure.pure, Except.pure, pyNumD_eq 50 ha']

theorem numericOpt_none {α : Type} : NumericOpt (α := α) none := by
  intro t h; cases h

theorem numericOpt_num {α : Type} (x : α) : NumericOpt (some (.num x)) := by
  intro t h; simp at h

/-- `round(x, 1)` is the identity whenever `10*x` is an integer. -/
theorem pyRound1_eval {x : ℝ} (n : ℤ) (h : 10 * x = (n : ℝ)) : pyRound1 x = x := by
  unfold pyRound1
  rw [h, roundHalfEven_intCast, ← h]
  ring

/-- Reduction of `calculate_comfort_index` when the body succeeds. -/
theorem calculate_comfort_index_ok {w : WeatherMap} {a : Option AirQualityMap}
    {o : ℝ} {f : ComfortFactors} (h : comfortBody w a = .ok (o, f)) :
    calculate_comfort_index w a =
      ⟨pyRound1 o, ⟨pyRound1 f.thermal_comfort, pyRound1 f.air_quality,
        pyRound1 f.precipitation_risk, pyRound1 f.uv_safety,
        pyRound1 f.weather_condition⟩, comfortRecommendation o⟩ := by
  unfold calculate_comfort_index
  rw [h]

/-- Reduction of `calculate_comfort_index` when the body raises. -/
theorem calculate_comfort_index_error {w : WeatherMap} {a : Option AirQualityMap}
    (h : comfortBody w a = .error ()) :
    calculate_comfort_index w a = comfortFallback := by
  unfold calculate_comfort_index
  rw [h]

theorem comfortVals_components (temp humidity wind uv precip_prob : ℝ)
    (code : PyVal ℝ) (aqi : ℝ) :
    comfortVals temp humidity wind uv precip_prob code aqi =
    (comfortThermal temp humidity wind * 0.25 + max 0 (100 - aqi) * 0.15
        + (100 - precip_prob) * 0.20 + max 0 (100 - uv * 12) * 0.15
        + severityScore (weatherCodeSeverity code) * 0.25,
      ⟨comfortThermal temp humidity wind, max 0 (100 - aqi), 100 - precip_prob,
        max 0 (100 - uv * 12), severityScore (weatherCodeSeverity code)⟩) := rfl

theorem comfortThermal_default : comfortThermal 15 50 10 = 90 := by
  unfold comfortThermal
  rw [if_neg (by norm_num : ¬ (15:ℝ) > 25), if_neg (by norm_num : ¬ (15:ℝ) < 5)]
  rw [abs_sub_comm, abs_of_nonneg (by norm_num : (0:ℝ) ≤ 20 - 15)]
  norm_num

theorem weatherCodeSeverity_zero : weatherCodeSeverity (.num 0) = "none" := by
  simp only [weatherCodeSeverity]
  norm_num

theorem severityScore_none : severityScore "none" = 100 := by
  unfold severityScore
  rw [if_pos rfl]

/-- Full evaluation of the comfort index on a weather dict missing every
key: the defaults 15 °C / 50 % / 10 km/h / UV 3 / 0 % / code 0 / AQI 50 give
factors 90, 50, 100, 64, 100 and overall 84.6. -/
theorem comfort_empty_eval :
    calculate_comfort_index ⟨none, none, none, none, none, none⟩ none
      = ⟨84.6, ⟨90, 50, 100, 64, 100⟩, "Perfect for outdoor activities"⟩ := by
  have hw : WeatherMap.Numeric ⟨none, none, none, none, none, none⟩ :=
    ⟨numericOpt_none, numericOpt_none, numericOpt_none, numericOpt_none,
      numericOpt_none⟩
  have hb := comfortBody_numeric hw (a := none) trivial
  simp only [effNum, effAqi, Option.getD] at hb
  rw [calculate_comfort_index_ok hb]
  rw [comfortThermal_default, weatherCodeSeverity_zero, severityScore_none]
  have hmax1 : max (0:ℝ) (100 - 50) = 50 := by
    rw [max_eq_right (by norm_num : (0:ℝ) ≤ 100 - 50)]; norm_num
  have hmax2 : max (0:ℝ) (100 - 3 * 12) = 64 := by
    rw [max_eq_right (by norm_num : (0:ℝ) ≤ 100 - 3 * 12)]; norm_num
  rw [hmax1, hmax2, show (100:ℝ) - 0 = 100 by norm_num]
  have ho : (90:ℝ) * 0.25 + 50 * 0.15 + 100 * 0.20 + 64 * 0.15 + 100 * 0.25
      = 84.6 := by norm_num
  rw [ho]
  simp only [ComfortResult.mk.injEq, ComfortFactors.mk.injEq]
  refine ⟨?_, ⟨?_, ?_, ?_, ?_, ?_⟩, ?_⟩
  · exact pyRound1_eval 846 (by norm_num)
  · show pyRound1 (90:ℝ) = 90
    exact pyRound1_eval 900 (by norm_num)
  · show pyRound1 (50:ℝ) = 50
    exact pyRound1_eval 500 (by norm_num)
  · show pyRound1 (100:ℝ) = 100
    exact pyRound1_eval 1000 (by norm_num)
  · show pyRound1 (64:ℝ) = 64
    exact pyRound1_eval 640 (by norm_num)
  · show pyRound1 (100:ℝ) = 100
    exact pyRound1_eval 1000 (by norm_num)
  · unfold comfortRecommendation
    rw [if_pos (by norm_num : (84.6:ℝ) ≥ 80)]

theorem comfortRecommendation_ne (o : ℝ) :
    comfortRecommendation o ≠ "Unable to calculate comfort index" := by
  unfold comfortRecommendation
  split_ifs <;> decide

/-- helper: a numeric-or-absent field satisfying `P` when present, with a
default satisfying `P`, has its effective value satisfying `P`. -/
theorem effNum_prop {α : Type} {P : α → Prop} {f : Option (PyVal α)} (d : α)
    (hf : NumericOpt f) (h : ∀ x, f = some (.num x) → P x) (hd : P d) :
    P (effNum f d) := by
  match f with
  | none => exact hd
  | some (.num x) => exact h x rfl
  | some (.invalid t) => exact absurd rfl (hf t)

theorem severityScore_bounds (s : String) :
    10 ≤ severityScore s ∧ severityScore s ≤ 100 := by
  unfold severityScore
  split_ifs <;> norm_num

/-- Bounds of the thermal sub-score: nonnegative, and (for nonnegative
humidity) strictly below 120.  The upper bound 100 fails in the heat branch
when humidity is low. -/
theorem comfortThermal_bounds (temp humidity wind : ℝ) (hhum : 0 ≤ humidity) :
    0 ≤ comfortThermal temp humidity wind ∧ comfortThermal temp humidity wind < 120 := by
  unfold comfortThermal
  split_ifs with h1 h2
  · have hle : min 40 ((temp - 25) * 2 + (humidity - 40) * 0.5) ≤ 40 :=
      min_le_left _ _
    have hgt : (-20:ℝ) < min 40 ((temp - 25) * 2 + (humidity - 40) * 0.5) :=
      lt_min (by norm_num) (by nlinarith)
    constructor <;> linarith
  · have hwc : calculate_wind_chill temp wind ≤ temp :=
      calculate_wind_chill_le_self temp wind (by linarith)
    have hE : (0:ℝ) < min 50 ((5 - calculate_wind_chill temp wind) * 3) :=
      lt_min (by norm_num) (by nlinarith)
    constructor
    · exact le_max_left 0 _
    · exact max_lt_iff.mpr ⟨by norm_num, by linarith⟩
  · have h5 : (5:ℝ) ≤ temp := not_lt.mp h2
    have h25 : temp ≤ 25 := not_lt.mp h1
    have habs : |temp - 20| ≤ 15 := abs_le.mpr ⟨by linarith, by linarith⟩
    have habs0 : (0:ℝ) ≤ |temp - 20| := abs_nonneg _
    constructor <;> linarith

theorem comfortThermal_26_0 : comfortThermal 26 0 10 = 118 := by
  unfold comfortThermal
  rw [if_pos (by norm_num : (26:ℝ) > 25)]
  rw [min_eq_right (by norm_num : ((26:ℝ) - 25) * 2 + (0 - 40) * 0.5 ≤ 40)]
  norm_num

/-- **C3** (counterexample): on `{"temperature": 26, "relative_humidity_2m": 0}`
the thermal factor is `100 - min(40, 2 + (0-40)*0.5) = 100 - (-18) = 118`,
which violates the claimed range [0,100] for every factor. -/
theorem comfort_factor_range_counterexample :
    (calculate_comfort_index ⟨some (.num 26), some (.num 0), none, none, none, none⟩
        none).factors.thermal_comfort = 118 ∧
    ¬ (calculate_comfort_index ⟨some (.num 26), some (.num 0), none, none, none, none⟩
        none).factors.thermal_comfort ≤ 100 := by
  have hw : WeatherMap.Numeric ⟨some (.num 26), some (.num 0), none, none, none, none⟩ :=
    ⟨numericOpt_num 26, numericOpt_num 0, numericOpt_none, numericOpt_none,
      numericOpt_none⟩
  have hb := comfortBody_numeric hw (a := none) trivial
  simp only [effNum, effAqi, Option.getD] at hb
  rw [calculate_comfort_index_ok hb]
  have h118 : pyRound1 (comfortThermal 26 0 10) = 118 := by
    rw [comfortThermal_26_0]
    exact pyRound1_eval 1180 (by norm_num)
  constructor
  · show pyRound1 (comfortThermal 26 0 10) = 118
    exact h118
  · show ¬ pyRound1 (comfortThermal 26 0 10) ≤ 100
    rw [h118]
    norm_num

/-- **C3** (amended): for numeric inputs whose present humidity, UV index
and European AQI are nonnegative and whose precipitation probability lies in
[0,100], every returned factor is nonnegative; air quality, precipitation
risk, UV safety and weather condition stay in [0,100], but the thermal
factor is only bounded by 120 and the overall only by 105. -/
theorem comfort_factors_bounded {w : WeatherMap} {a : Option AirQualityMap}
    (hw : w.Numeric) (ha : AirNumeric a)
    (hhum : ∀ x, w.relative_humidity_2m = some (.num x) → 0 ≤ x)
    (huv : ∀ x, w.uv_index = some (.num x) → 0 ≤ x)
    (hpp : ∀ x, w.precipitation_probability = some (.num x) → 0 ≤ x ∧ x ≤ 100)
    (haq : ∀ aq x, a = some aq → aq.european_aqi = some (.num x) → 0 ≤ x) :
    ComfortInBounds (calculate_comfort_index w a) := by
  have hb := comfortBody_numeric hw ha
  rw [calculate_comfort_index_ok hb]
  obtain ⟨ht', hh', hwd', hu', hp'⟩ := hw
  have Hhum : 0 ≤ effNum w.relative_humidity_2m 50 :=
    effNum_prop (P := fun x => 0 ≤ x) 50 hh' hhum (by norm_num)
  have Huv : 0 ≤ effNum w.uv_index 3 :=
    effNum_prop (P := fun x => 0 ≤ x) 3 hu' huv (by norm_num)
  have Hpp : 0 ≤ effNum w.precipitation_probability 0 ∧
      effNum w.precipitation_probability 0 ≤ 100 :=
    effNum_prop (P := fun x => 0 ≤ x ∧ x ≤ 100) 0 hp' hpp (by norm_num)
  have Haqi : 0 ≤ effAqi a := by
    match a, ha with
    | none, _ => norm_num [effAqi]
    | some aq, ha =>
      exact effNum_prop (P := fun x => 0 ≤ x) 50 ha
        (fun x hx => haq aq x rfl hx) (by norm_num)
  obtain ⟨HT0, HT1⟩ := comfortThermal_bounds (effNum w.temperature 15)
    (effNum w.relative_humidity_2m 50) (effNum w.wind_speed_10m 10) Hhum
  obtain ⟨HS0, HS1⟩ :=
    severityScore_bounds (weatherCodeSeverity (w.weather_code.getD (.num 0)))
  have HA0 : (0:ℝ) ≤ max 0 (100 - effAqi a) := le_max_left 0 _
  have HA1 : max (0:ℝ) (100 - effAqi a) ≤ 100 :=
    max_le (by norm_num) (by linarith)
  have HP0 : (0:ℝ) ≤ 100 - effNum w.precipitation_probability 0 := by
    linarith [Hpp.2]
  have HP1 : (100:ℝ) - effNum w.precipitation_probability 0 ≤ 100 := by
    linarith [Hpp.1]
  have HU0 : (0:ℝ) ≤ max 0 (100 - effNum w.uv_index 3 * 12) := le_max_left 0 _
  have HU1 : max (0:ℝ) (100 - effNum w.uv_index 3 * 12) ≤ 100 :=
    max_le (by norm_num) (by nlinarith)
  have HO0 : (0:ℝ) ≤ comfortThermal (effNum w.temperature 15)
        (effNum w.relative_humidity_2m 50) (effNum w.wind_speed_10m 10) * 0.25
      + max 0 (100 - effAqi a) * 0.15
      + (100 - effNum w.precipitation_probability 0) * 0.20
      + max 0 (100 - effNum w.uv_index 3 * 12) * 0.15
      + severityScore (weatherCodeSeverity (w.weather_code.getD (.num 0))) * 0.25 := by
    linarith
  have HO1 : comfortThermal (effNum w.temperature 15)
        (effNum w.relative_humidity_2m 50) (effNum w.wind_speed_10m 10) * 0.25
      + max 0 (100 - effAqi a) * 0.15
      + (100 - effNum w.precipitation_probability 0) * 0.20
      + max 0 (100 - effNum w.uv_index 3 * 12) * 0.15
      + severityScore (weatherCodeSeverity (w.weather_code.getD (.num 0))) * 0.25
      ≤ 105 := by linarith
  refine ⟨?_, ?_, ?_, ?_, ?_, ?_, ?_, ?_, ?_, ?_, ?_, ?_⟩
  · exact pyRound1_nonneg HO0
  · rw [show (105:ℝ) = ((105:ℤ):ℝ) by norm_num]
    exact pyRound1_le_of_le (by push_cast; linarith [HO1])
  · exact pyRound1_nonneg HT0
  · rw [show (120:ℝ) = ((120:ℤ):ℝ) by norm_num]
    exact pyRound1_le_of_le (by push_cast; linarith [HT1])
  · exact pyRound1_nonneg HA0
  · rw [show (100:ℝ) = ((100:ℤ):ℝ) by norm_num]
    exact pyRound1_le_of_le (by push_cast; linarith [HA1])
  · exact pyRound1_nonneg HP0
  · rw [show (100:ℝ) = ((100:ℤ):ℝ) by norm_num]
    exact pyRound1_le_of_le (by push_cast; linarith [HP1])
  · exact pyRound1_nonneg HU0
  · rw [show (100:ℝ) = ((100:ℤ):ℝ) by norm_num]
    exact pyRound1_le_of_le (by push_cast; linarith [HU1])
  · exact pyRound1_nonneg (le_trans (by norm_num) HS0)
  · rw [show (100:ℝ) = ((100:ℤ):ℝ) by norm_num]
    exact pyRound1_le_of_le (by push_cast; linarith [HS1])

theorem comfort_factors_bounded_witness :
    ComfortInBounds (calculate_comfort_index ⟨none, none, none, none, none, none⟩ none) :=
  comfort_factors_bounded
    ⟨numericOpt_none, numericOpt_none, numericOpt_none, numericOpt_none, numericOpt_none⟩
    trivial (fun x hx => by cases hx) (fun x hx => by cases hx)
    (fun x hx => by cases hx) (fun aq x hx => by cases hx)

/-- **C1** (counterexample): a weather dict missing all keys does NOT return
the fixed fallback — every missing key is replaced by its default and the
index is computed normally, giving overall 84.6 and recommendation
"Perfect for outdoor activities" instead of 50 / "Unable to calculate
comfort index". -/
theorem comfort_missing_keys_counterexample :
    calculate_comfort_index ⟨none, none, none, none, none, none⟩ none
      ≠ comfortFallback ∧
    (calculate_comfort_index ⟨none, none, none, none, none, none⟩ none).overall
      = 84.6 ∧
    (calculate_comfort_index ⟨none, none, none, none, none, none⟩ none).recommendation
      = "Perfect for outdoor activities" := by
  refine ⟨?_, by rw [comfort_empty_eval], by rw [comfort_empty_eval]⟩
  intro h
  have hrec := congrArg ComfortResult.recommendation h
  rw [comfort_empty_eval] at hrec
  exact absurd hrec (by decide)

/-- **C1** (amended): the fixed fallback (all factors and overall 50,
recommendation "Unable to calculate comfort index") is produced by invalid
(non-numeric) field values — e.g. a non-numeric temperature — not by
missing keys: a dict missing all keys is computed from the defaults and
yields overall 84.6, "Perfect for outdoor activities". -/
theorem comfort_fallback_semantics :
    (∀ (w : WeatherMap) (a : Option AirQualityMap) (t : Bool),
      w.temperature = some (.invalid t) →
      calculate_comfort_index w a = comfortFallback) ∧
    (calculate_comfort_index ⟨none, none, none, none, none, none⟩ none).overall
      = 84.6 ∧
    (calculate_comfort_index ⟨none, none, none, none, none, none⟩ none).recommendation
      = "Perfect for outdoor activities" := by
  refine ⟨?_, by rw [comfort_empty_eval], by rw [comfort_empty_eval]⟩
  intro w a t h
  apply calculate_comfort_index_error
  unfold comfortBody
  rw [pyNumD_invalid 15 h]
  rfl

theorem comfort_fallback_semantics_witness :
    calculate_comfort_index ⟨some (.invalid true), none, none, none, none, none⟩ none
      = comfortFallback :=
  comfort_fallback_semantics.1 ⟨some (.invalid true), none, none, none, none, none⟩
    none true rfl

theorem numericOpt_fill {α : Type} {f : Option (PyVal α)} (h : NumericOpt f)
    (d : α) : NumericOpt (some (f.getD (.num d))) := by
  intro t ht
  match f, ht with
  | none, ht => simp [Option.getD] at ht
  | some (.num x), ht => simp [Option.getD] at ht
  | some (.invalid u), ht => exact absurd rfl (h u)

theorem effNum_fill {α : Type} {f : Option (PyVal α)} (h : NumericOpt f)
    (d d' : α) : effNum (some (f.getD (.num d))) d' = effNum f d := by
  match f with
  | none => rfl
  | some (.num x) => rfl
  | some (.invalid u) => exact absurd rfl (h u)

/-- **C10**: on numeric inputs, `calculate_comfort_index` behaves exactly as
if every absent key were populated with its documented default (temperature
15, humidity 50, wind 10, uv 3, precipitation probability 0, weather code 0,
european_aqi 50), and absent keys never produce the exception fallback. -/
theorem comfort_defaults_for_missing_keys {w : WeatherMap}
    {a : Option AirQualityMap} (hw : w.Numeric) (ha : AirNumeric a) :
    calculate_comfort_index w a
      = calculate_comfort_index (fillWeather w) (fillAir a) ∧
    (calculate_comfort_index w a).recommendation
      ≠ "Unable to calculate comfort index" := by
  obtain ⟨h1, h2, h3, h4, h5⟩ := hw
  have hwf : (fillWeather w).Numeric :=
    ⟨numericOpt_fill h1 15, numericOpt_fill h2 50, numericOpt_fill h3 10,
      numericOpt_fill h4 3, numericOpt_fill h5 0⟩
  have haf : AirNumeric (fillAir a) := by
    match a, ha with
    | none, _ => exact numericOpt_num 50
    | some aq, ha => exact numericOpt_fill ha 50
  have hb := comfortBody_numeric ⟨h1, h2, h3, h4, h5⟩ ha
  have hbf := comfortBody_numeric hwf haf
  have hargs : comfortVals (effNum (fillWeather w).temperature 15)
      (effNum (fillWeather w).relative_humidity_2m 50)
      (effNum (fillWeather w).wind_speed_10m 10)
      (effNum (fillWeather w).uv_index 3)
      (effNum (fillWeather w).precipitation_probability 0)
      ((fillWeather w).weather_code.getD (.num 0)) (effAqi (fillAir a))
      = comfortVals (effNum w.temperature 15)
      (effNum w.relative_humidity_2m 50) (effNum w.wind_speed_10m 10)
      (effNum w.uv_index 3) (effNum w.precipitation_probability 0)
      (w.weather_code.getD (.num 0)) (effAqi a) := by
    rw [show (fillWeather w).temperature = some (w.temperature.getD (.num 15)) from rfl,
      show (fillWeather w).relative_humidity_2m
        = some (w.relative_humidity_2m.getD (.num 50)) from rfl,
      show (fillWeather w).wind_speed_10m
        = some (w.wind_speed_10m.getD (.num 10)) from rfl,
      show (fillWeather w).uv_index = some (w.uv_index.getD (.num 3)) from rfl,
      show (fillWeather w).precipitation_probability
        = some (w.precipitation_probability.getD (.num 0)) from rfl,
      show (fillWeather w).weather_code = some (w.weather_code.getD (.num 0)) from rfl]
    rw [effNum_fill h1, effNum_fill h2, effNum_fill h3, effNum_fill h4,
      effNum_fill h5]
    have haqeq : effAqi (fillAir a) = effAqi a := by
      match a, ha with
      | none, _ => rfl
      | some aq, ha =>
        show effNum (some (aq.european_aqi.getD (.num 50))) 50
          = effNum aq.european_aqi 50
        exact effNum_fill ha 50 50
    rw [haqeq]
    rfl
  rw [hargs] at hbf
  constructor
  · rw [calculate_comfort_index_ok hb, calculate_comfort_index_ok hbf]
  · rw [calculate_comfort_index_ok hb]
    exact comfortRecommendation_ne _

theorem comfort_defaults_for_missing_keys_witness :
    calculate_comfort_index ⟨none, none, none, none, none, none⟩ none
      = calculate_comfort_index (fillWeather ⟨none, none, none, none, none, none⟩)
          (fillAir none) ∧
    (calculate_comfort_index ⟨none, none, none, none, none, none⟩ none).recommendation
      ≠ "Unable to calculate comfort index" :=
  comfort_defaults_for_missing_keys
    ⟨numericOpt_none, numericOpt_none, numericOpt_none, numericOpt_none,
      numericOpt_none⟩ trivial

/-- **C7** (counterexample): strict decrease fails — below the 4.8 km/h
threshold the function returns the temperature unchanged, so at t = 0 °C the
wind speeds 1 and 2 km/h give equal results. -/
theorem wind_chill_strict_decrease_counterexample :
    (0:ℝ) < 10 ∧ (1:ℝ) < 2 ∧
    ¬ calculate_wind_chill 0 2 < calculate_wind_chill 0 1 := by
  refine ⟨by norm_num, by norm_num, ?_⟩
  unfold calculate_wind_chill
  rw [if_pos (show (2:ℝ) < 4.8 by norm_num), if_pos (show (1:ℝ) < 4.8 by norm_num)]
  exact lt_irrefl 0

/-- **C7** (amended): for fixed t < 10 °C, `calculate_wind_chill` is
monotonically non-increasing in wind speed (strictness fails below the
4.8 km/h threshold and under the 1-decimal rounding). -/
theorem wind_chill_nonincreasing_in_wind (t w1 w2 : ℝ) (ht : t < 10)
    (h : w1 < w2) : calculate_wind_chill t w2 ≤ calculate_wind_chill t w1 :=
  calculate_wind_chill_antitone t w1 w2 ht (le_of_lt h)

theorem wind_chill_nonincreasing_in_wind_witness :
    (0:ℝ) < 10 ∧ (0:ℝ) < 1 ∧
    calculate_wind_chill 0 1 ≤ calculate_wind_chill 0 0 :=
  ⟨by norm_num, by norm_num,
    wind_chill_nonincreasing_in_wind 0 0 1 (by norm_num) (by norm_num)⟩

set_option maxHeartbeats 1000000 in
/-- **C8**: the classifier is the first-match-wins chain — "Excellent" iff
rule 1 holds; "Good" iff rule 1 fails and rule 2 holds; "Fair" iff rules 1-2
fail and rule 3 holds; "Poor" iff all fail — and on snow_depth 1.2 m,
snowfall 15 cm, −10 °C, code 0 it returns "Excellent" even though the later
rules also match. -/
theorem ski_conditions_first_match (sd : SnowData) (wd : SkiWeatherData) :
    (assess_ski_conditions sd wd = "Excellent" ↔
      (sd.recent_snowfall.getD 0 > 10
        ∧ (-15 ≤ wd.temperature.getD 0 ∧ wd.temperature.getD 0 ≤ -5)
        ∧ wd.weather_code.getD 0 ∈ ([0, 1, 2] : List ℚ))) ∧
    (assess_ski_conditions sd wd = "Good" ↔
      (¬ (sd.recent_snowfall.getD 0 > 10
          ∧ (-15 ≤ wd.temperature.getD 0 ∧ wd.temperature.getD 0 ≤ -5)
          ∧ wd.weather_code.getD 0 ∈ ([0, 1, 2] : List ℚ))
        ∧ (sd.snow_depth.getD 0 > 0.5
          ∧ (-10 ≤ wd.temperature.getD 0 ∧ wd.temperature.getD 0 ≤ 0)
          ∧ wd.weather_code.getD 0 ∈ ([0, 1, 2, 3] : List ℚ)))) ∧
    (assess_ski_conditions sd wd = "Fair" ↔
      (¬ (sd.recent_snowfall.getD 0 > 10
          ∧ (-15 ≤ wd.temperature.getD 0 ∧ wd.temperature.getD 0 ≤ -5)
          ∧ wd.weather_code.getD 0 ∈ ([0, 1, 2] : List ℚ))
        ∧ ¬ (sd.snow_depth.getD 0 > 0.5
          ∧ (-10 ≤ wd.temperature.getD 0 ∧ wd.temperature.getD 0 ≤ 0)
          ∧ wd.weather_code.getD 0 ∈ ([0, 1, 2, 3] : List ℚ))
        ∧ (sd.snow_depth.getD 0 > 0.2 ∧ wd.temperature.getD 0 < 5))) ∧
    (assess_ski_conditions sd wd = "Poor" ↔
      (¬ (sd.recent_snowfall.getD 0 > 10
          ∧ (-15 ≤ wd.temperature.getD 0 ∧ wd.temperature.getD 0 ≤ -5)
          ∧ wd.weather_code.getD 0 ∈ ([0, 1, 2] : List ℚ))
        ∧ ¬ (sd.snow_depth.getD 0 > 0.5
          ∧ (-10 ≤ wd.temperature.getD 0 ∧ wd.temperature.getD 0 ≤ 0)
          ∧ wd.weather_code.getD 0 ∈ ([0, 1, 2, 3] : List ℚ))
        ∧ ¬ (sd.snow_depth.getD 0 > 0.2 ∧ wd.temperature.getD 0 < 5))) ∧
    assess_ski_conditions ⟨some 1.2, some 15⟩ ⟨some (-10), some 0⟩
      = "Excellent" := by
  simp only [assess_ski_conditions]
  have hex : (if (15:ℚ) > 10 ∧ ((-15:ℚ) ≤ -10 ∧ (-10:ℚ) ≤ -5)
      ∧ (0:ℚ) ∈ ([0, 1, 2] : List ℚ) then "Excellent"
    else if (1.2:ℚ) > 0.5 ∧ ((-10:ℚ) ≤ -10 ∧ (-10:ℚ) ≤ 0)
      ∧ (0:ℚ) ∈ ([0, 1, 2, 3] : List ℚ) then "Good"
    else if (1.2:ℚ) > 0.2 ∧ (-10:ℚ) < 5 then "Fair"
    else "Poor") = "Excellent" := by
    rw [if_pos ⟨by norm_num, ⟨by norm_num, by norm_num⟩, by norm_num⟩]
  refine ⟨?_, ?_, ?_, ?_, hex⟩ <;> split_ifs with h1 h2 h3 <;>
    first
      | exact iff_of_true rfl (by tauto)
      | exact iff_of_false (by decide) (by tauto)

/-- **C2** (counterexample): with a non-numeric entry in the hourly
temperature series and a perfectly well-formed 100 km/h wind-gust series,
the engine returns no alerts at all — the storm alert that is computable
from the well-formed wind field alone (second conjunct) is lost, because
the heat rule's exception aborts every following rule. -/
theorem alerts_skip_only_dependent_rule_counterexample :
    generate_weather_alerts (some ⟨none⟩)
      (some ⟨some [.invalid true], some [.num 100], none, none⟩)
      (some ⟨none⟩) "UTC" = [] ∧
    generate_weather_alerts (some ⟨none⟩)
      (some ⟨none, some [.num 100], none, none⟩)
      (some ⟨none⟩) "UTC" ≠ [] := by
  decide

/-- **C2** (amended): the engine never throws (it is a total function into
alert lists); a field that is *absent* merely disables the rules that read
it — with no temperature series the storm rule still fires on the wind
series — but a *malformed* (non-numeric) value raises inside its rule and
the shared exception handler then discards that rule and every later one,
returning only the alerts accumulated before the failure (here: none). -/
theorem alerts_soft_failure_semantics :
    generate_weather_alerts (some ⟨none⟩)
      (some ⟨none, some [.num 100], none, none⟩) (some ⟨none⟩) "UTC"
      = [{ type := "storm", severity := "warning", start := .now,
           stop := .nowPlusHours 4,
           description := "Storm warning: strong winds (>80 km/h) or thunderstorms expected",
           recommendations := stormRecs }] ∧
    generate_weather_alerts (some ⟨none⟩)
      (some ⟨some [.invalid true], some [.num 100], none, none⟩)
      (some ⟨none⟩) "UTC" = [] := by
  decide

theorem pyIndex_eq_getD {l : List String} {i : ℕ} (h : i < l.length) :
    pyIndex l i = .ok (l.getD i "") := by
  unfold pyIndex
  rw [List.getElem?_eq_getElem h, List.getD_eq_getElem l "" h]

theorem countAbove30_map (l : List ℚ) :
    countAbove30 (l.map PyVal.num)
      = .ok ((l.filter (fun t => decide (30 < t))).length) := by
  induction l with
  | nil => rfl
  | cons x xs ih =>
    simp only [List.map_cons, countAbove30, pyGT, List.filter_cons, ih,
      Bind.bind, Except.bind, Pure.pure, Except.pure]
    by_cases h : (30:ℚ) < x
    · simp [h]
    · simp [h]

theorem anyBelowNeg10_map (l : List ℚ) :
    anyBelowNeg10 (l.map PyVal.num)
      = .ok (l.any (fun t => decide (t < -10))) := by
  induction l with
  | nil => rfl
  | cons x xs ih =>
    simp only [List.map_cons, anyBelowNeg10, pyLT, List.any_cons, ih,
      Bind.bind, Except.bind, Pure.pure, Except.pure]
    by_cases h : x < -10
    · simp [h]
    · simp [h, ih]

/-- The heat rule on an all-numeric temperature series with a time series of
at least 25 samples: it fires exactly when at least 3 of the first 24
samples exceed 30 °C, with the claimed severity split and window. -/
theorem heatRule_map (temps : List ℚ) (times : List String)
    (hlen : 25 ≤ times.length) :
    heatRule (temps.map PyVal.num) times
      = .ok (if 3 ≤ ((temps.take 24).filter (fun t => decide (30 < t))).length then
          [{ type := "heat"
             severity :=
               if ((temps.take 24).filter (fun t => decide (30 < t))).length < 6
               then "watch" else "warning"
             start := .lit (times.headD "")
             stop := .lit (times.getD
               (min 24 ((temps.take 24).filter (fun t => decide (30 < t))).length) "")
             description := "High temperature alert: "
               ++ toString ((temps.take 24).filter (fun t => decide (30 < t))).length
               ++ " hours above 30°C expected"
             recommendations := heatRecs }]
        else []) := by
  have htne : times ≠ [] := by
    intro h
    rw [h] at hlen
    simp at hlen
  have hcount : countAbove30 ((temps.map PyVal.num).take 24)
      = .ok ((temps.take 24).filter (fun t => decide (30 < t))).length := by
    rw [← List.map_take]
    exact countAbove30_map (temps.take 24)
  cases temps with
  | nil => simp [heatRule, Pure.pure, Except.pure]
  | cons t0 trest =>
    have hne : (t0 :: trest).map PyVal.num ≠ [] := by simp
    unfold heatRule
    rw [if_pos hne, hcount]
    simp only [Bind.bind, Except.bind]
    by_cases h3 : 3 ≤ (((t0 :: trest).take 24).filter (fun t => decide (30 < t))).length
    · rw [if_pos h3, if_pos htne]
      have hlt : min 24 (((t0 :: trest).take 24).filter (fun t => decide (30 < t))).length
          < times.length := by
        have := min_le_left 24 (((t0 :: trest).take 24).filter (fun t => decide (30 < t))).length
        omega
      rw [pyIndex_eq_getD hlt]
      simp only [Bind.bind, Except.bind, Pure.pure, Except.pure]
      rw [if_pos htne, if_pos h3]
    · rw [if_neg h3, if_neg h3]
      rfl

/-- The cold rule with the default current temperature 20 °C and an
all-numeric temperature series: never raises, fires exactly when some of
the first 24 samples is below −10 °C (severity watch since 20 > −20). -/
theorem coldRule_num20_map (temps : List ℚ) (times : List String) :
    coldRule (.num 20) (temps.map PyVal.num) times
      = .ok (if (temps.take 24).any (fun t => decide (t < -10))
          then [{ type := "cold", severity := "watch"
                  start := if times ≠ [] then .lit (times.headD "") else .now
                  stop := if times ≠ [] then
                      .lit (times.getD (min 12 (times.length - 1)) "")
                    else .nowPlusHours 12
                  description := "Extreme cold alert: temperatures below -10°C expected"
                  recommendations := coldRecs }]
          else []) := by
  unfold coldRule
  simp only [pyNum, Bind.bind, Except.bind]
  rw [if_neg (by norm_num : ¬ (20:ℚ) < -10)]
  rw [← List.map_take, anyBelowNeg10_map]
  simp only [Bind.bind, Except.bind, Pure.pure, Except.pure]
  by_cases hfire : (temps.take 24).any (fun t => decide (t < -10))
  · rw [if_pos hfire]
    simp only [hfire, if_true]
    rw [if_pos (by norm_num : (20:ℚ) > -20)]
  · rw [if_neg hfire]
    simp [hfire]

/-- **C4**: with an all-numeric temperature series, at least 25 timestamps,
and no wind/UV/daily-code data, the heat alerts of
`generate_weather_alerts` are exactly: one alert when at least 3 of the
first 24 samples exceed 30 °C (severity "watch" below 6 such hours,
"warning" from 6 up; window from the first timestamp to index
`min(24, heat_hours)`), none otherwise.  In particular `[31]*3 + [20]*21`
yields exactly one heat alert of severity "watch" and `[36]*7 + [20]*17`
yields one of severity "warning". -/
theorem heat_alert_characterization :
    (∀ (temps : List ℚ) (times : List String), 25 ≤ times.length →
      ((generate_weather_alerts (some ⟨none⟩)
          (some ⟨some (temps.map PyVal.num), none, none, some times⟩)
          (some ⟨none⟩) "UTC").filter (fun a => a.type == "heat"))
        = (if 3 ≤ ((temps.take 24).filter (fun t => decide (30 < t))).length then
            [{ type := "heat"
               severity :=
                 if ((temps.take 24).filter (fun t => decide (30 < t))).length < 6
                 then "watch" else "warning"
               start := .lit (times.headD "")
               stop := .lit (times.getD
                 (min 24 ((temps.take 24).filter (fun t => decide (30 < t))).length) "")
               description := "High temperature alert: "
                 ++ toString ((temps.take 24).filter (fun t => decide (30 < t))).length
                 ++ " hours above 30°C expected"
               recommendations := heatRecs }]
          else [])) ∧
    generate_weather_alerts (some ⟨none⟩)
      (some ⟨some ((([31, 31, 31] ++ List.replicate 21 20) : List ℚ).map PyVal.num),
        none, none, some (List.replicate 25 "t")⟩) (some ⟨none⟩) "UTC"
      = [{ type := "heat", severity := "watch", start := .lit "t", stop := .lit "t",
           description := "High temperature alert: 3 hours above 30°C expected",
           recommendations := heatRecs }] ∧
    generate_weather_alerts (some ⟨none⟩)
      (some ⟨some (((List.replicate 7 36 ++ List.replicate 17 20) : List ℚ).map PyVal.num),
        none, none, some (List.replicate 25 "t")⟩) (some ⟨none⟩) "UTC"
      = [{ type := "heat", severity := "warning", start := .lit "t", stop := .lit "t",
           description := "High temperature alert: 7 hours above 30°C expected",
           recommendations := heatRecs }] := by
  refine ⟨?_, by decide, by decide⟩
  intro temps times hlen
  have hheat := heatRule_map temps times hlen
  have hcold := coldRule_num20_map temps times
  simp only [generate_weather_alerts, Option.getD]
  rw [hheat, hcold]
  have hstorm : stormRule [] [] times = .ok ([], []) := rfl
  have huv : uvRule [] times = .ok [] := rfl
  have hwind : windRule [] times [] = .ok [] := rfl
  rw [hstorm, huv]
  simp only [hwind, List.filter_append, List.append_nil]
  by_cases h3 : 3 ≤ ((temps.take 24).filter (fun t => decide (30 < t))).length
  · rw [if_pos h3]
    by_cases hfire : (temps.take 24).any (fun t => decide (t < -10))
    · rw [if_pos hfire]
      simp
    · rw [if_neg hfire]
      simp
  · rw [if_neg h3]
    by_cases hfire : (temps.take 24).any (fun t => decide (t < -10))
    · rw [if_pos hfire]
      simp
    · rw [if_neg hfire]
      simp

/-- Every alert the heat rule produces has type "heat". -/
theorem heatRule_types {temps : List (PyVal ℚ)} {times : List String}
    {l : List Alert} (h : heatRule temps times = .ok l) :
    ∀ a ∈ l, a.type = "heat" := by
  unfold heatRule at h
  by_cases h1 : temps ≠ []
  · rw [if_pos h1] at h
    cases hc : countAbove30 (temps.take 24) with
    | error e => rw [hc] at h; simp [Bind.bind, Except.bind] at h
    | ok n =>
      rw [hc] at h
      simp only [Bind.bind, Except.bind] at h
      by_cases h3 : n ≥ 3
      · rw [if_pos h3] at h
        by_cases h4 : times ≠ []
        · rw [if_pos h4] at h
          cases hp : pyIndex times (min 24 n) with
          | error e => rw [hp] at h; simp [Bind.bind, Except.bind] at h
          | ok s =>
            rw [hp] at h
            simp only [Bind.bind, Except.bind, Pure.pure, Except.pure,
              Except.ok.injEq] at h
            subst h
            intro a ha
            simp at ha
            subst ha
            rfl
        · rw [if_neg h4] at h
          simp only [Bind.bind, Except.bind, Pure.pure, Except.pure,
            Except.ok.injEq] at h
          subst h
          intro a ha
          simp at ha
          subst ha
          rfl
      · rw [if_neg h3] at h
        simp only [Pure.pure, Except.pure, Except.ok.injEq] at h
        subst h
        intro a ha
        simp at ha
  · rw [if_neg h1] at h
    simp only [Pure.pure, Except.pure, Except.ok.injEq] at h
    subst h
    intro a ha
    simp at ha

/-- Every alert the cold rule produces has type "cold". -/
theorem coldRule_types {ct : PyVal ℚ} {temps : List (PyVal ℚ)}
    {times : List String} {l : List Alert}
    (h : coldRule ct temps times = .ok l) : ∀ a ∈ l, a.type = "cold" := by
  unfold coldRule at h
  cases hn : pyNum ct with
  | error e => rw [hn] at h; simp [Bind.bind, Except.bind] at h
  | ok t =>
    rw [hn] at h
    simp only [Bind.bind, Except.bind] at h
    by_cases hlt : t < -10
    · rw [if_pos hlt] at h
      simp only [Bind.bind, Except.bind, Pure.pure, Except.pure,
        if_true, Except.ok.injEq] at h
      subst h
      intro a ha
      simp at ha
      subst ha
      rfl
    · rw [if_neg hlt] at h
      cases hb : anyBelowNeg10 (temps.take 24) with
      | error e => rw [hb] at h; simp [Bind.bind, Except.bind] at h
      | ok fires =>
        rw [hb] at h
        simp only [Bind.bind, Except.bind, Pure.pure, Except.pure] at h
        cases fires with
        | true =>
          simp only [if_true, Except.ok.injEq] at h
          subst h
          intro a ha
          simp at ha
          subst ha
          rfl
        | false =>
          simp only [Bool.false_eq_true, if_false, Except.ok.injEq] at h
          subst h
          intro a ha
          simp at ha

/-- The storm rule's success inverts to: `high_wind_hours` is exactly the
result of the `> 80` index filter, and every produced alert has type
"storm". -/
theorem stormRule_inv {winds codes : List (PyVal ℚ)} {times : List String}
    {l : List Alert} {hwh : List ℕ}
    (h : stormRule winds codes times = .ok (l, hwh)) :
    filterIdxGT 80 0 winds = .ok hwh ∧ ∀ a ∈ l, a.type = "storm" := by
  unfold stormRule at h
  cases hf : filterIdxGT 80 0 winds with
  | error e => rw [hf] at h; simp [Bind.bind, Except.bind] at h
  | ok hw =>
    rw [hf] at h
    simp only [Bind.bind, Except.bind] at h
    by_cases hfire : hw ≠ [] ∨ thunderstormCodes codes ≠ []
    · rw [if_pos hfire] at h
      by_cases hst : hw ≠ [] ∧ times ≠ []
      · rw [if_pos hst] at h
        cases hp : pyIndex times (hw.headD 0) with
        | error e => rw [hp] at h; simp [Bind.bind, Except.bind] at h
        | ok s =>
          rw [hp] at h
          simp only [Bind.bind, Except.bind, Pure.pure, Except.pure,
            Except.ok.injEq, Prod.mk.injEq] at h
          obtain ⟨hl, hh⟩ := h
          subst hl
          subst hh
          exact ⟨rfl, by intro a ha; simp at ha; subst ha; rfl⟩
      · rw [if_neg hst] at h
        simp only [Bind.bind, Except.bind, Pure.pure, Except.pure,
          Except.ok.injEq, Prod.mk.injEq] at h
        obtain ⟨hl, hh⟩ := h
        subst hl
        subst hh
        exact ⟨rfl, by intro a ha; simp at ha; subst ha; rfl⟩
    · rw [if_neg hfire] at h
      simp only [Pure.pure, Except.pure, Except.ok.injEq, Prod.mk.injEq] at h
      obtain ⟨hl, hh⟩ := h
      subst hl
      subst hh
      exact ⟨rfl, by intro a ha; simp at ha⟩

/-- Every alert the UV rule produces has type "uv". -/
theorem uvRule_types {uvs : List (PyVal ℚ)} {times : List String}
    {l : List Alert} (h : uvRule uvs times = .ok l) :
    ∀ a ∈ l, a.type = "uv" := by
  unfold uvRule at h
  cases hf : filterIdxGT 8 0 uvs with
  | error e => rw [hf] at h; simp [Bind.bind, Except.bind] at h
  | ok hu =>
    rw [hf] at h
    simp only [Bind.bind, Except.bind] at h
    by_cases hfire : hu ≠ []
    · rw [if_pos hfire] at h
      by_cases ht : times ≠ []
      · rw [if_pos ht] at h
        cases hp : pyIndex times (hu.headD 0) with
        | error e => rw [hp] at h; simp [Bind.bind, Except.bind] at h
        | ok s =>
          rw [hp] at h
          simp only [Bind.bind, Except.bind, Pure.pure, Except.pure,
            Except.ok.injEq] at h
          subst h
          intro a ha
          simp at ha
          subst ha
          rfl
      · rw [if_neg ht] at h
        simp only [Bind.bind, Except.bind, Pure.pure, Except.pure,
          Except.ok.injEq] at h
        subst h
        intro a ha
        simp at ha
        subst ha
        rfl
    · rw [if_neg hfire] at h
      simp only [Pure.pure, Except.pure, Except.ok.injEq] at h
      subst h
      intro a ha
      simp at ha

/-- The moderate-wind rule's success inverts to: when it produced anything,
the storm rule's `high_wind_hours` was empty, and every produced alert has
type "wind" and severity "advisory". -/
theorem windRule_inv {winds : List (PyVal ℚ)} {times : List String}
    {hwh : List ℕ} {l : List Alert}
    (h : windRule winds times hwh = .ok l) :
    (l ≠ [] → hwh = []) ∧ ∀ a ∈ l, a.type = "wind" ∧ a.severity = "advisory" := by
  unfold windRule at h
  cases hf : filterIdxBetween 50 80 0 winds with
  | error e => rw [hf] at h; simp [Bind.bind, Except.bind] at h
  | ok mwh =>
    rw [hf] at h
    simp only [Bind.bind, Except.bind] at h
    by_cases hfire : mwh ≠ [] ∧ hwh = []
    · rw [if_pos hfire] at h
      by_cases ht : times ≠ []
      · rw [if_pos ht] at h
        cases hp : pyIndex times (mwh.headD 0) with
        | error e => rw [hp] at h; simp [Bind.bind, Except.bind] at h
        | ok s =>
          rw [hp] at h
          simp only [Bind.bind, Except.bind, Pure.pure, Except.pure,
            Except.ok.injEq] at h
          subst h
          refine ⟨fun _ => hfire.2, ?_⟩
          intro a ha
          simp at ha
          subst ha
          exact ⟨rfl, rfl⟩
      · rw [if_neg ht] at h
        simp only [Bind.bind, Except.bind, Pure.pure, Except.pure,
          Except.ok.injEq] at h
        subst h
        refine ⟨fun _ => hfire.2, ?_⟩
        intro a ha
        simp at ha
        subst ha
        exact ⟨rfl, rfl⟩
    · rw [if_neg hfire] at h
      simp only [Pure.pure, Except.pure, Except.ok.injEq] at h
      subst h
      exact ⟨fun hne => absurd rfl hne, fun a ha => by simp at ha⟩

/-- If any produced alert has type "wind", the `> 80` wind filter succeeded
and found nothing: no storm alert can have been triggered by high wind in
the same evaluation. -/
theorem wind_advisory_excludes_high_wind {c : Option CurrentData}
    {h : HourlyData} {d : Option DailyData} {tz : String} {a : Alert}
    (hmem : a ∈ generate_weather_alerts c (some h) d tz)
    (htype : a.type = "wind") :
    filterIdxGT 80 0 (h.wind_gusts_10m.getD []) = .ok [] := by
  cases c with
  | none => simp [generate_weather_alerts] at hmem
  | some cc =>
  cases d with
  | none => simp [generate_weather_alerts] at hmem
  | some dd =>
  simp only [generate_weather_alerts] at hmem
  cases hheat : heatRule (h.temperature_2m.getD []) (h.time.getD []) with
  | error e => simp only [hheat] at hmem; simp at hmem
  | ok a1 =>
  cases hcold : coldRule (cc.temperature.getD (.num 20))
      (h.temperature_2m.getD []) (h.time.getD []) with
  | error e =>
    simp only [hheat, hcold] at hmem
    have := heatRule_types hheat a hmem
    rw [this] at htype
    exact absurd htype (by decide)
  | ok a2 =>
  cases hstorm : stormRule (h.wind_gusts_10m.getD []) (dd.weather_code.getD [])
      (h.time.getD []) with
  | error e =>
    simp only [hheat, hcold, hstorm, List.mem_append] at hmem
    rcases hmem with hmem | hmem
    · have := heatRule_types hheat a hmem
      rw [this] at htype
      exact absurd htype (by decide)
    · have := coldRule_types hcold a hmem
      rw [this] at htype
      exact absurd htype (by decide)
  | ok p =>
  obtain ⟨a3, hwh⟩ := p
  cases huv : uvRule (h.uv_index.getD []) (h.time.getD []) with
  | error e =>
    simp only [hheat, hcold, hstorm, huv, List.mem_append] at hmem
    rcases hmem with (hmem | hmem) | hmem
    · have := heatRule_types hheat a hmem
      rw [this] at htype
      exact absurd htype (by decide)
    · have := coldRule_types hcold a hmem
      rw [this] at htype
      exact absurd htype (by decide)
    · have := (stormRule_inv hstorm).2 a hmem
      rw [this] at htype
      exact absurd htype (by decide)
  | ok a4 =>
  cases hwind : windRule (h.wind_gusts_10m.getD []) (h.time.getD []) hwh with
  | error e =>
    simp only [hheat, hcold, hstorm, huv, hwind, List.mem_append] at hmem
    rcases hmem with ((hmem | hmem) | hmem) | hmem
    · have := heatRule_types hheat a hmem
      rw [this] at htype
      exact absurd htype (by decide)
    · have := coldRule_types hcold a hmem
      rw [this] at htype
      exact absurd htype (by decide)
    · have := (stormRule_inv hstorm).2 a hmem
      rw [this] at htype
      exact absurd htype (by decide)
    · have := uvRule_types huv a hmem
      rw [this] at htype
      exact absurd htype (by decide)
  | ok a5 =>
  simp only [hheat, hcold, hstorm, huv, hwind, List.mem_append] at hmem
  rcases hmem with (((hmem | hmem) | hmem) | hmem) | hmem
  · have := heatRule_types hheat a hmem
    rw [this] at htype
    exact absurd htype (by decide)
  · have := coldRule_types hcold a hmem
    rw [this] at htype
    exact absurd htype (by decide)
  · have := (stormRule_inv hstorm).2 a hmem
    rw [this] at htype
    exact absurd htype (by decide)
  · have := uvRule_types huv a hmem
    rw [this] at htype
    exact absurd htype (by decide)
  · have hne : a5 ≠ [] := List.ne_nil_of_mem hmem
    have hempty : hwh = [] := (windRule_inv hwind).1 hne
    have := (stormRule_inv hstorm).1
    rw [hempty] at this
    exact this

/-- On an all-numeric list the `> thr` index filter (for a positive
threshold) never raises, and finds nothing exactly when every sample is at
most the threshold. -/
theorem filterIdxGT_map (thr : ℚ) (hthr : 0 < thr) (l : List ℚ) (i : ℕ) :
    ∃ idxs, filterIdxGT thr i (l.map PyVal.num) = .ok idxs ∧
      (idxs = [] ↔ ∀ x ∈ l, x ≤ thr) := by
  induction l generalizing i with
  | nil => exact ⟨[], rfl, by simp⟩
  | cons x xs ih =>
    obtain ⟨idxs, hrec, hiff⟩ := ih (i + 1)
    by_cases hx0 : x = 0
    · refine ⟨idxs, ?_, ?_⟩
      · simp only [List.map_cons, filterIdxGT]
        rw [show pyTruthy (PyVal.num x) = false by simp [pyTruthy, hx0]]
        simp only [Bool.false_eq_true, if_false]
        exact hrec
      · rw [hiff, List.forall_mem_cons]
        constructor
        · intro hxs
          exact ⟨by rw [hx0]; exact le_of_lt hthr, hxs⟩
        · exact fun hh => hh.2
    · by_cases hgt : thr < x
      · refine ⟨i :: idxs, ?_, ?_⟩
        · simp only [List.map_cons, filterIdxGT, pyGT]
          rw [show pyTruthy (PyVal.num x) = true by simp [pyTruthy, hx0]]
          simp only [if_true, Bind.bind, Except.bind, hrec, Pure.pure, Except.pure]
          simp [hgt]
        · constructor
          · intro hh
            exact absurd hh (by simp)
          · intro hh
            exact absurd (hh x (by simp)) (not_le.mpr hgt)
      · refine ⟨idxs, ?_, ?_⟩
        · simp only [List.map_cons, filterIdxGT, pyGT]
          rw [show pyTruthy (PyVal.num x) = true by simp [pyTruthy, hx0]]
          simp only [if_true, Bind.bind, Except.bind, hrec, Pure.pure, Except.pure]
          simp [hgt]
        · rw [hiff, List.forall_mem_cons]
          constructor
          · intro hxs
            exact ⟨not_lt.mp hgt, hxs⟩
          · exact fun hh => hh.2

/-- On an all-numeric list the `(50, 80]` index filter never raises, and
finds something exactly when some sample lies in the interval. -/
theorem filterIdxBetween_map (l : List ℚ) (i : ℕ) :
    ∃ idxs, filterIdxBetween 50 80 i (l.map PyVal.num) = .ok idxs ∧
      (idxs ≠ [] ↔ ∃ x ∈ l, 50 < x ∧ x ≤ 80) := by
  induction l generalizing i with
  | nil => exact ⟨[], rfl, by simp⟩
  | cons x xs ih =>
    obtain ⟨idxs, hrec, hiff⟩ := ih (i + 1)
    by_cases hx0 : x = 0
    · refine ⟨idxs, ?_, ?_⟩
      · simp only [List.map_cons, filterIdxBetween]
        rw [show pyTruthy (PyVal.num x) = false by simp [pyTruthy, hx0]]
        simp only [Bool.false_eq_true, if_false]
        exact hrec
      · rw [hiff]
        constructor
        · rintro ⟨y, hy, hrange⟩
          exact ⟨y, by simp [hy], hrange⟩
        · rintro ⟨y, hy, hrange⟩
          rcases List.mem_cons.mp hy with hxy | hy'
          · exfalso
            rw [hxy, hx0] at hrange
            exact absurd hrange.1 (by norm_num)
          · exact ⟨y, hy', hrange⟩
    · by_cases hin : 50 < x ∧ x ≤ 80
      · refine ⟨i :: idxs, ?_, ?_⟩
        · simp only [List.map_cons, filterIdxBetween]
          rw [show pyTruthy (PyVal.num x) = true by simp [pyTruthy, hx0]]
          simp only [if_true, Bind.bind, Except.bind, hrec, Pure.pure, Except.pure]
          simp [hin]
        · constructor
          · intro _
            exact ⟨x, by simp, hin⟩
          · intro _
            simp
      · refine ⟨idxs, ?_, ?_⟩
        · simp only [List.map_cons, filterIdxBetween]
          rw [show pyTruthy (PyVal.num x) = true by simp [pyTruthy, hx0]]
          simp only [if_true, Bind.bind, Except.bind, hrec, Pure.pure, Except.pure]
          simp [hin]
        · rw [hiff]
          constructor
          · rintro ⟨y, hy, hrange⟩
            exact ⟨y, by simp [hy], hrange⟩
          · rintro ⟨y, hy, hrange⟩
            rcases List.mem_cons.mp hy with hxy | hy'
            · exfalso
              rw [hxy] at hrange
              exact hin hrange
            · exact ⟨y, hy', hrange⟩

theorem heatRule_map_nilTimes (ts : List ℚ) :
    ∃ l, heatRule (ts.map PyVal.num) [] = .ok l := by
  cases ts with
  | nil => exact ⟨[], rfl⟩
  | cons t0 tr =>
    have hcount : countAbove30 (((t0 :: tr).map PyVal.num).take 24)
        = .ok (((t0 :: tr).take 24).filter (fun t => decide (30 < t))).length := by
      rw [← List.map_take]
      exact countAbove30_map _
    unfold heatRule
    rw [if_pos (by simp), hcount]
    simp only [Bind.bind, Except.bind]
    by_cases h3 : (((t0 :: tr).take 24).filter (fun t => decide (30 < t))).length ≥ 3
    · rw [if_pos h3, if_neg (by simp : ¬ ([] : List String) ≠ [])]
      simp only [Bind.bind, Except.bind, Pure.pure, Except.pure]
      exact ⟨_, rfl⟩
    · rw [if_neg h3]
      exact ⟨[], rfl⟩

theorem coldRule_map_nilTimes (ct : ℚ) (ts : List ℚ) :
    ∃ l, coldRule (.num ct) (ts.map PyVal.num) [] = .ok l := by
  unfold coldRule
  simp only [pyNum, Bind.bind, Except.bind]
  by_cases hct : ct < -10
  · rw [if_pos hct]
    simp only [Bind.bind, Except.bind, Pure.pure, Except.pure, if_true]
    exact ⟨_, rfl⟩
  · rw [if_neg hct, ← List.map_take, anyBelowNeg10_map]
    simp only [Bind.bind, Except.bind, Pure.pure, Except.pure]
    by_cases hfire : (ts.take 24).any (fun t => decide (t < -10))
    · rw [if_pos hfire]
      exact ⟨_, rfl⟩
    · rw [if_neg hfire]
      exact ⟨[], rfl⟩

theorem stormRule_map_nilTimes (ws cs : List ℚ) :
    ∃ a3 hwh, stormRule (ws.map PyVal.num) (cs.map PyVal.num) [] = .ok (a3, hwh)
      ∧ (hwh = [] ↔ ∀ w ∈ ws, w ≤ 80) := by
  obtain ⟨hwh, hf, hiff⟩ := filterIdxGT_map 80 (by norm_num) ws 0
  unfold stormRule
  rw [hf]
  simp only [Bind.bind, Except.bind]
  by_cases hfire : hwh ≠ [] ∨ thunderstormCodes (cs.map PyVal.num) ≠ []
  · rw [if_pos hfire, if_neg (by simp : ¬ (hwh ≠ [] ∧ ([] : List String) ≠ []))]
    simp only [Bind.bind, Except.bind, Pure.pure, Except.pure]
    exact ⟨_, hwh, rfl, hiff⟩
  · rw [if_neg hfire]
    exact ⟨[], hwh, rfl, hiff⟩

theorem uvRule_map_nilTimes (us : List ℚ) :
    ∃ l, uvRule (us.map PyVal.num) [] = .ok l := by
  obtain ⟨hu, hf, _⟩ := filterIdxGT_map 8 (by norm_num) us 0
  unfold uvRule
  rw [hf]
  simp only [Bind.bind, Except.bind]
  by_cases hfire : hu ≠ []
  · rw [if_pos hfire, if_neg (by simp : ¬ ([] : List String) ≠ [])]
    simp only [Bind.bind, Except.bind, Pure.pure, Except.pure]
    exact ⟨_, rfl⟩
  · rw [if_neg hfire]
    exact ⟨[], rfl⟩

theorem windRule_map_nilTimes (ws : List ℚ) (hwh : List ℕ) :
    ∃ a5, windRule (ws.map PyVal.num) [] hwh = .ok a5 ∧
      (a5 ≠ [] ↔ ((∃ w ∈ ws, 50 < w ∧ w ≤ 80) ∧ hwh = [])) ∧
      ∀ a ∈ a5, a.type = "wind" := by
  obtain ⟨mwh, hf, hiff⟩ := filterIdxBetween_map ws 0
  unfold windRule
  rw [hf]
  simp only [Bind.bind, Except.bind]
  by_cases hfire : mwh ≠ [] ∧ hwh = []
  · rw [if_pos hfire, if_neg (by simp : ¬ ([] : List String) ≠ [])]
    simp only [Bind.bind, Except.bind, Pure.pure, Except.pure]
    refine ⟨_, rfl, ?_, ?_⟩
    · constructor
      · intro _
        exact ⟨hiff.mp hfire.1, hfire.2⟩
      · intro _
        simp
    · intro a ha
      simp at ha
      subst ha
      rfl
  · rw [if_neg hfire]
    refine ⟨[], rfl, ?_, by intro a ha; simp at ha⟩
    constructor
    · intro hne
      exact absurd rfl hne
    · rintro ⟨hex, hempty⟩
      exact absurd ⟨hiff.mpr hex, hempty⟩ hfire

/-- **C6** (counterexample): on the wind series `[0, 60]` — which contains a
sample in (50, 80] and none above 80 — with a one-element time series, no
moderate-wind advisory is emitted: the advisory's window computation indexes
`time[1]`, the `IndexError` is swallowed, and the alert list comes back
empty, so "fires exactly when" fails. -/
theorem wind_advisory_counterexample :
    (∃ w ∈ ([0, 60] : List ℚ), 50 < w ∧ w ≤ 80) ∧
    (∀ w ∈ ([0, 60] : List ℚ), w ≤ 80) ∧
    generate_weather_alerts (some ⟨none⟩)
      (some ⟨none, some (([0, 60] : List ℚ).map PyVal.num), none, some ["t0"]⟩)
      (some ⟨none⟩) "UTC" = [] := by
  decide

/-- **C6** (amended): (1) on all-numeric series with the hourly time field
absent, the moderate-wind advisory appears exactly when some gust sample
lies in (50, 80] and no gust sample exceeds 80 km/h; (2) for every input
whatsoever, a produced wind advisory implies the `> 80` scan succeeded and
found nothing, so a storm alert triggered by high wind and a moderate-wind
advisory never coexist. -/
theorem wind_advisory_semantics :
    (∀ (ct : ℚ) (ts ws us cs : List ℚ),
      ((∃ a ∈ generate_weather_alerts (some ⟨some (.num ct)⟩)
          (some ⟨some (ts.map PyVal.num), some (ws.map PyVal.num),
            some (us.map PyVal.num), none⟩)
          (some ⟨some (cs.map PyVal.num)⟩) "UTC", a.type = "wind")
        ↔ ((∃ w ∈ ws, 50 < w ∧ w ≤ 80) ∧ ∀ w ∈ ws, w ≤ 80))) ∧
    (∀ (c : Option CurrentData) (h : HourlyData) (d : Option DailyData)
        (tz : String) (a : Alert),
      a ∈ generate_weather_alerts c (some h) d tz → a.type = "wind" →
      filterIdxGT 80 0 (h.wind_gusts_10m.getD []) = .ok []) := by
  constructor
  · intro ct ts ws us cs
    obtain ⟨a1, e1⟩ := heatRule_map_nilTimes ts
    obtain ⟨a2, e2⟩ := coldRule_map_nilTimes ct ts
    obtain ⟨a3, hwh, e3, hiffGT⟩ := stormRule_map_nilTimes ws cs
    obtain ⟨a4, e4⟩ := uvRule_map_nilTimes us
    obtain ⟨a5, e5, hiffW, htypes5⟩ := windRule_map_nilTimes ws hwh
    simp only [generate_weather_alerts, Option.getD_some, Option.getD_none,
      e1, e2, e3, e4, e5, List.mem_append]
    constructor
    · rintro ⟨a, (((ha | ha) | ha) | ha) | ha, htype⟩
      · have := heatRule_types e1 a ha
        rw [this] at htype
        exact absurd htype (by decide)
      · have := coldRule_types e2 a ha
        rw [this] at htype
        exact absurd htype (by decide)
      · have := (stormRule_inv e3).2 a ha
        rw [this] at htype
        exact absurd htype (by decide)
      · have := uvRule_types e4 a ha
        rw [this] at htype
        exact absurd htype (by decide)
      · have hne : a5 ≠ [] := List.ne_nil_of_mem ha
        obtain ⟨hex, hempty⟩ := hiffW.mp hne
        exact ⟨hex, hiffGT.mp hempty⟩
    · rintro ⟨hex, hall⟩
      have hne : a5 ≠ [] := hiffW.mpr ⟨hex, hiffGT.mpr hall⟩
      obtain ⟨a, ha⟩ := List.exists_mem_of_ne_nil a5 hne
      exact ⟨a, Or.inr ha, htypes5 a ha⟩
  · intro c h d tz a hmem htype
    exact wind_advisory_excludes_high_wind hmem htype

theorem wind_advisory_semantics_witness :
    ((∃ a ∈ generate_weather_alerts (some ⟨some (.num 20)⟩)
        (some ⟨some (([] : List ℚ).map PyVal.num),
          some (([60] : List ℚ).map PyVal.num),
          some (([] : List ℚ).map PyVal.num), none⟩)
        (some ⟨some (([] : List ℚ).map PyVal.num)⟩) "UTC", a.type = "wind")
      ↔ ((∃ w ∈ ([60] : List ℚ), 50 < w ∧ w ≤ 80)
          ∧ ∀ w ∈ ([60] : List ℚ), w ≤ 80)) ∧
    filterIdxGT 80 0 ((⟨none, some [.num 60], none, none⟩ : HourlyData).wind_gusts_10m.getD [])
      = .ok [] :=
  ⟨wind_advisory_semantics.1 20 [] [60] [] [],
    wind_advisory_semantics.2 (some ⟨none⟩) ⟨none, some [.num 60], none, none⟩
      (some ⟨none⟩) "UTC"
      ⟨"wind", "advisory", .now, .nowPlusHours 2,
        "High wind advisory: gusts 50-80 km/h expected", windRecs⟩
      (by decide) (by decide)⟩

theorem precipScan_spec (precip : List ℚ) (n : ℕ) : ∀ i : ℕ,
    (precipScan precip i n).length ≤ 1 ∧
    (∀ a ∈ precipScan precip i n, a.type = "precipitation" ∧ 10 < a.amount ∧
      a.severity = (if 20 < a.amount then "warning" else "watch") ∧
      i ≤ a.startHoursFromNow ∧ a.startHoursFromNow < i + n ∧
      a.startHoursFromNow < precip.length ∧
      a.endHoursFromNow = a.startHoursFromNow + 1 ∧
      a.amount = precip.getD a.startHoursFromNow 0 ∧
      ∀ j, i ≤ j → j < a.startHoursFromNow → j < precip.length →
        precip.getD j 0 ≤ 10) ∧
    ((∃ k, i ≤ k ∧ k < i + n ∧ k < precip.length ∧ 10 < precip.getD k 0) →
      precipScan precip i n ≠ []) := by
  induction n with
  | zero =>
    intro i
    refine ⟨by simp [precipScan], by simp [precipScan], ?_⟩
    rintro ⟨k, hk1, hk2, _, _⟩
    omega
  | succ n ih =>
    intro i
    obtain ⟨ihlen, ihmem, ihcomp⟩ := ih (i + 1)
    by_cases hi : i < precip.length
    · by_cases hp : 10 < precip.getD i 0
      · rw [show precipScan precip i (n + 1)
            = [{ type := "precipitation"
                 severity := if 20 < precip.getD i 0 then "warning" else "watch"
                 startHoursFromNow := i, endHoursFromNow := i + 1
                 amount := precip.getD i 0
                 recommendations := precipRecs }] by
            simp only [precipScan]
            rw [if_pos hi, if_pos hp]]
        refine ⟨by simp, ?_, by simp⟩
        intro a ha
        simp only [List.mem_singleton] at ha
        subst ha
        refine ⟨rfl, hp, rfl, le_refl i, ?_, hi, rfl, rfl, ?_⟩
        · show i < i + (n + 1)
          omega
        · intro j hj1 hj2 _
          have hj2i : j < i := hj2
          omega
      · rw [show precipScan precip i (n + 1) = precipScan precip (i + 1) n by
            simp only [precipScan]
            rw [if_pos hi, if_neg hp]]
        refine ⟨ihlen, ?_, ?_⟩
        · intro a ha
          obtain ⟨h1, h2, h3, h4, h5, h6, h7, h8, h9⟩ := ihmem a ha
          refine ⟨h1, h2, h3, by omega, by omega, h6, h7, h8, ?_⟩
          intro j hj1 hj2 hj3
          rcases Nat.eq_or_lt_of_le hj1 with hji | hji
          · rw [← hji]
            exact le_of_not_lt hp
          · exact h9 j hji hj2 hj3
        · rintro ⟨k, hk1, hk2, hk3, hk4⟩
          apply ihcomp
          rcases Nat.eq_or_lt_of_le hk1 with hki | hki
          · exfalso
            rw [← hki] at hk4
            exact hp hk4
          · exact ⟨k, hki, by omega, hk3, hk4⟩
    · rw [show precipScan precip i (n + 1) = precipScan precip (i + 1) n by
          simp only [precipScan]
          rw [if_neg hi]]
      refine ⟨ihlen, ?_, ?_⟩
      · intro a ha
        obtain ⟨h1, h2, h3, h4, h5, h6, h7, h8, h9⟩ := ihmem a ha
        refine ⟨h1, h2, h3, by omega, by omega, h6, h7, h8, ?_⟩
        intro j hj1 hj2 hj3
        rcases Nat.eq_or_lt_of_le hj1 with hji | hji
        · omega
        · exact h9 j hji hj2 hj3
      · rintro ⟨k, hk1, hk2, hk3, hk4⟩
        apply ihcomp
        have : k ≠ i := by omega
        exact ⟨k, by omega, by omega, hk3, hk4⟩

/-- **C5**: the current-snapshot precipitation scan visits at most
`min(forecast_hours, len(time))` samples, emits at most one precipitation
alert, and an emitted alert is the first scanned sample above 10 mm — with
severity "warning" above 20 mm and "watch" otherwise — while some in-range
sample above 10 mm guarantees an alert. -/
theorem precipitation_alert_first_match (forecast_hours : ℕ)
    (timeLen : Option ℕ) (precip : List ℚ) :
    (get_weather_alerts_precipitation forecast_hours timeLen (some precip)).length ≤ 1 ∧
    (∀ a ∈ get_weather_alerts_precipitation forecast_hours timeLen (some precip),
      a.type = "precipitation" ∧ 10 < a.amount ∧
      a.severity = (if 20 < a.amount then "warning" else "watch") ∧
      a.startHoursFromNow < min forecast_hours (timeLen.getD 24) ∧
      a.startHoursFromNow < precip.length ∧
      a.amount = precip.getD a.startHoursFromNow 0 ∧
      ∀ j < a.startHoursFromNow, j < precip.length → precip.getD j 0 ≤ 10) ∧
    ((∃ i, i < min forecast_hours (timeLen.getD 24) ∧ i < precip.length ∧
        10 < precip.getD i 0) →
      get_weather_alerts_precipitation forecast_hours timeLen (some precip) ≠ []) := by
  obtain ⟨h1, h2, h3⟩ :=
    precipScan_spec precip (min forecast_hours (timeLen.getD 24)) 0
  refine ⟨h1, ?_, ?_⟩
  · intro a ha
    obtain ⟨g1, g2, g3, _, g5, g6, _, g8, g9⟩ := h2 a ha
    refine ⟨g1, g2, g3, by omega, g6, g8, ?_⟩
    intro j hj hjl
    exact g9 j (Nat.zero_le j) hj hjl
  · rintro ⟨i, hi1, hi2, hi3⟩
    exact h3 ⟨i, Nat.zero_le i, by omega, hi2, hi3⟩

theorem precipitation_alert_first_match_witness :
    get_weather_alerts_precipitation 24 none (some [0, 15]) ≠ [] :=
  (precipitation_alert_first_match 24 none [0, 15]).2.2
    ⟨1, by decide, by decide, by decide⟩

/-- **C9**: for every latitude (poles included), longitude, date and clock
hour, the astronomy computation raises nowhere and returns non-null sunrise
and sunset: the `asin` argument is a product of sines, hence within
[-1, 1], and `cos_h` is clamped into [-1, 1] before `acos`. -/
theorem astronomy_never_null (latitude longitude : ℝ)
    (dayOfYear nowHour : ℕ) :
    (calculate_astronomy_data latitude longitude dayOfYear nowHour).sunrise.isSome
       = true ∧
    (calculate_astronomy_data latitude longitude dayOfYear nowHour).sunset.isSome
       = true := by
  have hA : ∀ x : ℝ, |Real.sin (23.4393 * (Real.pi / 180)) * Real.sin x| ≤ 1 := by
    intro x
    rw [abs_mul]
    calc |Real.sin (23.4393 * (Real.pi / 180))| * |Real.sin x|
        ≤ 1 * 1 := by
          exact mul_le_mul (Real.abs_sin_le_one _) (Real.abs_sin_le_one _)
            (abs_nonneg _) zero_le_one
      _ = 1 := by norm_num
  have hB : ∀ y : ℝ, |max (-1 : ℝ) (min 1 y)| ≤ 1 := by
    intro y
    rw [abs_le]
    exact ⟨le_max_left _ _, max_le (by norm_num) (min_le_left _ _)⟩
  unfold calculate_astronomy_data astronomyBody pyAsin pyAcos
  simp [Bind.bind, Except.bind, Pure.pure, Except.pure, hA, hB]

theorem heat_alert_characterization_witness :
    ((generate_weather_alerts (some ⟨none⟩)
        (some ⟨some (([] : List ℚ).map PyVal.num), none, none,
          some (List.replicate 25 "t")⟩) (some ⟨none⟩) "UTC").filter
      (fun a => a.type == "heat")) = [] := by
  have h := heat_alert_characterization.1 [] (List.replicate 25 "t") (by decide)
  simpa using h
